import Mathlib

/-
  Verification development for the fim-shopify multi-vendor shipping backend.

  The JavaScript source is shallowly embedded as executable Lean definitions:
  JS numbers that carry money or day counts become Rat, integer counters become
  Int or Nat, fallible asynchronous calls become Except-valued oracles passed
  in explicitly, and the in-process mutable state (caches, durable stores,
  network-call log) is threaded as explicit state records.  Wall-clock reads
  (Date.now) are passed in as an explicit millisecond parameter; ISO date
  formatting of delivery estimates is abstracted to the underlying day offset.
-/

namespace FimShopify

/-! ## JS-style coercion helpers (src/src/utils/location.js, money.js) -/

/-- JS a-or-else-b on strings: the empty string is falsy. -/
def jsOrStr (s d : String) : String := if s = "" then d else s

/-- JS a-or-else-b where the left side is an optional string. -/
def jsOrOptStr (o : Option String) (d : String) : String :=
  match o with
  | some s => jsOrStr s d
  | none => d

/-- JS a-or-else-b on numbers: 0 is falsy. -/
def jsOrInt (o : Option Int) (d : Int) : Int :=
  match o with
  | some v => if v = 0 then d else v
  | none => d

/-- JS a-or-else-b on fractional numbers: 0 is falsy. -/
def jsOrRat (o : Option Rat) (d : Rat) : Rat :=
  match o with
  | some v => if v = 0 then d else v
  | none => d

/-- JS three-way a-or-b-or-c chain on integers, 0 falsy. -/
def jsOrIntChain (a b c : Int) : Int := if a ≠ 0 then a else if b ≠ 0 then b else c

/-- Character-level whitespace trim on both ends (String.trim of the
source, reimplemented structurally over the character list). -/
def trimChars (l : List Char) : List Char :=
  (((l.dropWhile Char.isWhitespace).reverse).dropWhile Char.isWhitespace).reverse

/-- JS String.prototype.trim. -/
def strTrim (s : String) : String := String.mk (trimChars s.data)

/-- JS String.prototype.toUpperCase over the ASCII range this code base
feeds it. -/
def strUpper (s : String) : String := String.mk (s.data.map Char.toUpper)

/-- JS String.prototype.toLowerCase over the ASCII range this code base
feeds it. -/
def strLower (s : String) : String := String.mk (s.data.map Char.toLower)

/-- A JS value appearing in a boolean-ish payload field: absent, a boolean,
or a string (the shapes that reach the truthy helper in this code base). -/
inductive JsBoolish
  | undef
  | jbool (b : Bool)
  | jstr (s : String)
deriving DecidableEq

/-- truthy from src/src/utils/location.js: booleans pass through, strings are
lowercased, trimmed and compared against the accepted spellings. -/
def jsTruthy : JsBoolish → Bool
  | .undef => false
  | .jbool b => b
  | .jstr s => ["1", "true", "yes", "y", "on"].contains (strTrim (strLower s))

/-- normalizePostalCode from src/src/utils/location.js: trim, keep the digits
(truncated to the configured length) or, with no digits at all, the
whitespace-free uppercased text (also truncated). -/
def normalizePostalCode (raw : String) (len : Nat) : String :=
  let value := strTrim raw
  if value = "" then ""
  else
    let digits := String.mk (value.data.filter Char.isDigit)
    if digits ≠ "" then
      if 0 < len ∧ len ≤ digits.length then String.mk (digits.data.take len) else digits
    else
      let compact := String.mk ((value.data.filter (fun c => !c.isWhitespace)).map Char.toUpper)
      if 0 < len ∧ len ≤ compact.length then String.mk (compact.data.take len) else compact

/-! ## Money helpers (src/unnamed/part_004, module utils/money)

Money amounts are integers throughout this code base (IDR has no circulating
subunit and Shopify subunits are integral), so the embedding carries them as
Int.  The two places where the source forms the fractional quotient value
over 100 are embedded by exact integer reformulations, documented on the
definitions below. -/

/-- toShopifySubunits: multiply a major-unit amount by 100 and clamp below
at 0.  The JS Math.round around the product is the identity on the integral
amounts of this model. -/
def toShopifySubunits (valueMajor : Int) : Int := max 0 (valueMajor * 100)

/-- Math.round(subunits / 100), the rounded major-unit value of a subunit
amount: Math.round(x) is the floor of x plus one half, so the quotient is
the floor division of subunits + 50 by 100, exactly. -/
def roundedFromSubunits (subunits : Int) : Int := Int.fdiv (subunits + 50) 100

/-! ## Bounded TTL cache (src/unnamed/part_003, class MemoryCache)

The JS Map is embedded as an association list in insertion order; Map set
on an existing key keeps its position, a delete followed by a set moves the
key to the back, eviction removes list heads. -/

/-- A MemoryCache: entries (key, value, expiresAt-milliseconds) in JS Map
iteration order. -/
abbrev MC (α : Type) := List (String × α × Int)

/-- Remove the entry for a key (JS map.delete). -/
def mcErase {α : Type} (c : MC α) (k : String) : MC α := c.filter (fun e => e.1 != k)

/-- MemoryCache.get at wall-clock now: a missing key returns null, an expired
entry is deleted lazily and returns null, a live entry is moved to the back
(the touch) and its value returned. -/
def mcGet {α : Type} (c : MC α) (k : String) (now : Int) : Option α × MC α :=
  match List.lookup k c with
  | none => (none, c)
  | some (v, exp) =>
    if exp ≤ now then (none, mcErase c k)
    else (some v, mcErase c k ++ [(k, v, exp)])

/-- JS map.set: overwrite in place when the key exists (keeping its
position), otherwise append at the back. -/
def mcSetRaw {α : Type} (c : MC α) (k : String) (v : α) (exp : Int) : MC α :=
  if (List.lookup k c).isSome then
    c.map (fun e => if e.1 = k then (k, v, exp) else e)
  else c ++ [(k, v, exp)]

/-- MemoryCache._evictIfNeeded: while the size exceeds the cap, delete the
first key in iteration order. -/
def mcEvict {α : Type} (c : MC α) (maxEntries : Nat) : MC α :=
  if maxEntries < c.length then c.drop (c.length - maxEntries) else c

/-- MemoryCache.set: compute the expiry from the ttl, store, then evict. -/
def mcSet {α : Type} (c : MC α) (k : String) (v : α) (ttlSeconds now : Int)
    (maxEntries : Nat) : MC α :=
  mcEvict (mcSetRaw c k v (now + ttlSeconds * 1000)) maxEntries

/-- The keys of a cache in iteration order. -/
def mcKeys {α : Type} (c : MC α) : List String := c.map (fun e => e.1)

/-! ## Courier rates and aggregation
(src/src/services/carrier-registration.js, class ShippingService) -/

/-- A normalized Biteship rate as produced by BiteshipClient._normalizeRate:
codes are lowercased strings, the price is a number, and the delivery window
is expressed in (possibly fractional) days. -/
structure Rate where
  courierName : String
  courierCode : String
  serviceName : String
  serviceCode : String
  price : Int
  minDay : Rat
  maxDay : Rat
deriving DecidableEq

/-- ShippingService._rateKey: the deduplication key of a rate. -/
def rateKey (r : Rate) : String := r.courierCode ++ "__" ++ r.serviceCode

/-- One step of the per-group deduplication loop: keep the lower-priced rate
per key.  Replacing an existing key keeps its JS-Map position; a new key is
appended at the back. -/
def dedupStep (m : List (String × Rate)) (r : Rate) : List (String × Rate) :=
  let k := rateKey r
  match List.lookup k m with
  | none => m ++ [(k, r)]
  | some existing =>
    if r.price < existing.price then
      m.map (fun p => if p.1 = k then (k, r) else p)
    else m

/-- ShippingService._aggregate, dedup phase: fold the rates of one group into
a keyed map keeping the lowest price per (courierCode, serviceCode) key. -/
def dedupe (rs : List Rate) : List (String × Rate) := rs.foldl dedupStep []

/-- One comparison step of the cheapest-rate selection. -/
def firstMinStep (acc : Option Rate) (r : Rate) : Option Rate :=
  match acc with
  | none => some r
  | some b => if r.price < b.price then some r else acc

/-- The first element of a stable ascending sort by price, i.e. the earliest
rate attaining the minimum price (Array.sort in JS is stable). -/
def firstMinByPrice (l : List Rate) : Option Rate :=
  l.foldl firstMinStep none

/-- The per-seller rate response handed to _aggregate. -/
structure GroupRates where
  sellerId : String
  originPostalCode : String
  rates : List Rate
deriving DecidableEq

/-- A normalized group inside _aggregate: the deduplicated keyed rates plus
the cheapest entry. -/
structure NormGroup where
  sellerId : String
  originPostalCode : String
  byKey : List (String × Rate)
  cheapest : Option Rate
deriving DecidableEq

/-- Build the normalized form of one group (the first map in _aggregate). -/
def normalizeGroup (g : GroupRates) : NormGroup :=
  { sellerId := g.sellerId
    originPostalCode := g.originPostalCode
    byKey := dedupe g.rates
    cheapest := firstMinByPrice ((dedupe g.rates).map (fun p => p.2)) }

/-- One intersection step: keep the keys also present in the next group. -/
def commonKeyFilterStep (acc : List String) (h : NormGroup) : List String :=
  acc.filter (fun k => (List.lookup k h.byKey).isSome)

/-- The intersection of rate keys over all groups, in the key order of the
first group (Set construction and filter preserve that order in JS). -/
def commonKeysList (ngs : List NormGroup) : List String :=
  match ngs with
  | [] => []
  | g :: rest => rest.foldl commonKeyFilterStep (g.byKey.map (fun p => p.1))

/-- Accumulator of the inner per-key loop of _aggregate. -/
structure AggAcc where
  totalPrice : Int
  courierName : String
  serviceName : String
  courierCode : String
  serviceCode : String
  minDay : Rat
  maxDay : Rat

/-- One step of the inner per-key loop of _aggregate: add the price of the
rate of this group under the key, keep the latest non-empty naming fields,
and keep the slowest delivery window.  A key in the common set is present in
every group, so the none branch is unreachable there. -/
def aggKeyStep (k : String) (acc : AggAcc) (g : NormGroup) : AggAcc :=
  match List.lookup k g.byKey with
  | some r =>
    { totalPrice := acc.totalPrice + r.price
      courierName := jsOrStr r.courierName acc.courierName
      serviceName := jsOrStr r.serviceName acc.serviceName
      courierCode := jsOrStr r.courierCode acc.courierCode
      serviceCode := jsOrStr r.serviceCode acc.serviceCode
      minDay := max acc.minDay r.minDay
      maxDay := max acc.maxDay r.maxDay }
  | none => acc

/-- The inner loop of _aggregate for one common key. -/
def aggKeyFold (ngs : List NormGroup) (k : String) : AggAcc :=
  ngs.foldl (aggKeyStep k)
    { totalPrice := 0, courierName := "Biteship", serviceName := "Regular"
      courierCode := "biteship", serviceCode := "regular", minDay := 0, maxDay := 0 }

/-- The per-key price total stated independently of the loop accumulator:
the sum over the groups of the price held under the key. -/
def keyPriceSum : List NormGroup → String → Int
  | [], _ => 0
  | g :: rest, k => ((List.lookup k g.byKey).map Rate.price).getD 0 + keyPriceSum rest k

/-- The fee and threshold rule applied to a combined base price: clamp the
configured fee and threshold at 0, zero the total when the threshold is
active and the subtotal reaches it, otherwise add the fee.  The subtotal is
carried in subunits, so the threshold (major units) is compared after
multiplying by 100, exactly the source comparison of the fractional
major-unit subtotal against the threshold. -/
def applyFeeRule (subtotalSubunits handlingFeeIdr freeThresholdIdr base : Int) : Int :=
  if 0 < max 0 freeThresholdIdr ∧ max 0 freeThresholdIdr * 100 ≤ subtotalSubunits then 0
  else base + max 0 handlingFeeIdr

/-- An aggregated checkout rate prior to Shopify formatting. -/
structure AggRate where
  courierName : String
  serviceName : String
  courierCode : String
  serviceCode : String
  totalPriceIdr : Int
  minDay : Rat
  maxDay : Rat
  fallback : Bool
deriving DecidableEq

/-- The body of the per-common-key loop of _aggregate: the handling fee is
added and the total zeroed when the free-shipping threshold is active and
reached.  handlingFee and freeThreshold arrive already clamped at 0; the
subtotal is in subunits and the threshold comparison multiplies by 100 as in
applyFeeRule. -/
def aggForKey (ngs : List NormGroup) (subtotalSubunits handlingFee freeThreshold : Int)
    (k : String) : AggRate :=
  let a := aggKeyFold ngs k
  let tp0 := a.totalPrice + handlingFee
  let tp := if 0 < freeThreshold ∧ freeThreshold * 100 ≤ subtotalSubunits then 0 else tp0
  { courierName := a.courierName, serviceName := a.serviceName
    courierCode := a.courierCode, serviceCode := a.serviceCode
    totalPriceIdr := tp, minDay := a.minDay, maxDay := a.maxDay, fallback := false }

/-- The sum of the cheapest price of each group (the mixed fallback total). -/
def sumCheapest : List NormGroup → Int
  | [] => 0
  | g :: rest => ((g.cheapest.map Rate.price).getD 0) + sumCheapest rest

/-- The slowest minDay over the cheapest entries (base 0, as the loop
starts from 0 and JS Math.max folds against it). -/
def mixedMinDay : List NormGroup → Rat
  | [] => 0
  | g :: rest => max ((g.cheapest.map Rate.minDay).getD 0) (mixedMinDay rest)

/-- The slowest maxDay over the cheapest entries. -/
def mixedMaxDay : List NormGroup → Rat
  | [] => 0
  | g :: rest => max ((g.cheapest.map Rate.maxDay).getD 0) (mixedMaxDay rest)

/-- ShippingService._aggregate: deduplicate per group, intersect the rate
keys over every group, and emit one combined rate per common key; when the
intersection is empty fall back to a single synthetic mixed-cheapest rate,
unless some group has no quote at all, in which case nothing is returned. -/
def aggregate (groupRates : List GroupRates) (subtotalSubunits : Int)
    (handlingFeeIdr freeThresholdIdr : Int) : List AggRate :=
  let ngs := groupRates.map normalizeGroup
  let handlingFee := max 0 handlingFeeIdr
  let freeThreshold := max 0 freeThresholdIdr
  let aggregated :=
    (commonKeysList ngs).map (aggForKey ngs subtotalSubunits handlingFee freeThreshold)
  if 0 < aggregated.length then aggregated
  else if ngs.any (fun g => g.cheapest.isNone) then []
  else
    let mixedTotal0 := sumCheapest ngs + handlingFee
    let mixedTotal :=
      if 0 < freeThreshold ∧ freeThreshold * 100 ≤ subtotalSubunits then 0 else mixedTotal0
    [{ courierName := "Mixed", serviceName := "Cheapest", courierCode := "mixed"
       serviceCode := "cheapest", totalPriceIdr := mixedTotal
       minDay := mixedMinDay ngs, maxDay := mixedMaxDay ngs, fallback := true }]

/-! ## Shopify-facing rate formatting (ShippingService._toShopifyRate) -/

/-- ShippingService._sanitizeServiceCode: uppercase, replace anything outside
A-Z, 0-9 and the underscore by an underscore, and truncate to 60 chars; the
empty input falls back to RATE. -/
def sanitizeServiceCode (raw : String) : String :=
  let s := if raw = "" then "RATE" else raw
  String.mk
    (((strUpper s).data.map
        (fun c => if c.isUpper || c.isDigit || c == '_' then c else '_')).take 60)

/-- A checkout-facing rate.  The min and max delivery dates are ISO
timestamps computed from Date.now in the source (_toIsoDateFromNow); the
wall-clock formatting is abstracted here to the day offsets that feed it,
kept only when positive exactly as the source omits non-positive offsets. -/
structure ShopifyRate where
  service_name : String
  service_code : String
  total_price : String
  currency : String
  description : String
  phone_required : Bool
  minDeliveryDaysFromNow : Option Rat
  maxDeliveryDaysFromNow : Option Rat
deriving DecidableEq

/-- ShippingService._toShopifyRate. -/
def toShopifyRate (serviceNameBase : String) (phoneRequired : Bool) (r : AggRate)
    (currency : String) (sellerGroupCount : Nat) (isFallback : Bool) : ShopifyRate :=
  { service_name :=
      if isFallback then serviceNameBase ++ " Multi Seller (Cheapest)"
      else serviceNameBase ++ " " ++ r.courierName ++ " " ++ r.serviceName
    service_code :=
      if isFallback then "BSH_MULTI_CHEAPEST"
      else sanitizeServiceCode ("BSH_" ++ r.courierCode ++ "_" ++ r.serviceCode)
    total_price := toString (toShopifySubunits r.totalPriceIdr)
    currency := currency
    description :=
      if isFallback then
        "Cheapest mixed courier (" ++ toString sellerGroupCount ++ " origin seller)"
      else
        "Biteship " ++ r.courierName ++ " " ++ r.serviceName ++ " (" ++
          toString sellerGroupCount ++ " origin seller)"
    phone_required := phoneRequired
    minDeliveryDaysFromNow := if 0 < r.minDay then some r.minDay else none
    maxDeliveryDaysFromNow := if 0 < r.maxDay then some r.maxDay else none }

/-- Stable insertion of an aggregated rate into a price-ascending list:
placed after every element of lower or equal price (JS Array.sort is
stable). -/
def insertByPrice (r : AggRate) : List AggRate → List AggRate
  | [] => [r]
  | h :: t => if r.totalPriceIdr < h.totalPriceIdr then r :: h :: t else h :: insertByPrice r t

/-- Stable ascending sort by total price. -/
def sortByPrice (l : List AggRate) : List AggRate :=
  l.foldl (fun acc r => insertByPrice r acc) []

/-! ## Seller and origin resolution
(ShippingService._getVariantMapping / _getSellerOrigin; the same resolution
logic appears verbatim in OrderSyncService) -/

/-- A variant-to-seller mapping as resolved by the Webkul client. -/
structure VariantMapping where
  shopifyVariantId : String
  sellerId : String
  variantWeight : Option Int
  lengthCm : Option Rat
  widthCm : Option Rat
  heightCm : Option Rat
deriving DecidableEq

/-- A seller shipping origin, also the record shape persisted by
SellerOriginStore (src/unnamed/part_002): contact, e-mail, store naming and
shop-domain fields travel with it, and the updatedAt ISO timestamp of a
persisted copy is carried as the wall-clock milliseconds at which it was
written, per the timestamp policy of this embedding (absent on records that
were never persisted). -/
structure Origin where
  sellerId : String
  postalCode : String
  city : String
  state : String
  country : String
  address1 : String
  contact : String
  sellerEmail : String
  storeName : String
  storeNameHandle : String
  shopDomain : String
  latitude : Option Rat
  longitude : Option Rat
  source : String
  updatedAtMs : Option Int
deriving DecidableEq

/-- An outbound network call issued while computing a quote. -/
inductive NetCall
  | variantLookup (variantId : String)
  | sellerLookup (sellerId : String)
  | ratesRequest (sellerId : String)
deriving DecidableEq

/-- The shipping-side configuration slice (src/src/config.js fields that the
quote path reads). -/
structure CalcConfig where
  postalCodeLength : Nat
  currency : String
  couriers : List String
  handlingFeeIdr : Int
  freeThresholdIdr : Int
  maxRates : Nat
  defaultItemWeightGrams : Int
  defaultOriginPostalCode : String
  serviceNameBase : String
  phoneRequired : Bool
  variantTtlSeconds : Int
  sellerTtlSeconds : Int
  rateTtlSeconds : Int
  cacheMaxEntries : Nat
deriving DecidableEq

/-- The mutable process state touched by a quote computation, plus a log of
the network calls issued. -/
structure CalcState where
  variantCache : MC VariantMapping
  sellerCache : MC Origin
  rateCache : MC (List ShopifyRate)
  sellerOriginStore : List (String × Origin)
  calls : List NetCall
deriving DecidableEq

/-- The Webkul client surface used at quote time (each call is asynchronous
and fallible in the source; embedded as an Except-valued oracle). -/
structure WebkulOracle where
  resolveVariantToSeller : String → Except String VariantMapping
  resolveSellerOrigin : String → Except String Origin

/-- JS value-or-empty on an optional numeric field: 0 and absent collapse
to the empty-string sentinel, embedded as none. -/
def jsNumOrEmpty (o : Option Rat) : Option Rat :=
  match o with
  | some v => if v = 0 then none else some v
  | none => none

/-- The normalized copy stored by SellerOriginStore.upsert
(src/unnamed/part_002): every string field defaulted through a JS or-chain,
the country defaulting to ID and the source to manual, the coordinates
collapsed to the empty sentinel when falsy, and the updatedAt timestamp set
to the write clock. -/
def normalizeOriginRecord (o : Origin) (now : Int) : Origin :=
  { sellerId := o.sellerId
    postalCode := jsOrStr o.postalCode ""
    city := jsOrStr o.city ""
    state := jsOrStr o.state ""
    country := jsOrStr o.country "ID"
    address1 := jsOrStr o.address1 ""
    contact := jsOrStr o.contact ""
    sellerEmail := jsOrStr o.sellerEmail ""
    storeName := jsOrStr o.storeName ""
    storeNameHandle := jsOrStr o.storeNameHandle ""
    shopDomain := jsOrStr o.shopDomain ""
    latitude := jsNumOrEmpty o.latitude
    longitude := jsNumOrEmpty o.longitude
    source := jsOrStr o.source "manual"
    updatedAtMs := some now }

/-- SellerOriginStore.upsert (src/unnamed/part_002): a record without a
sellerId is ignored (the null-origin guard is unrepresentable here);
otherwise a normalized copy is stored under the sellerId, keeping the
position of an existing key and appending a new one as JS object key
assignment does, and the store is persisted. -/
def upsertOrigin (store : List (String × Origin)) (o : Origin) (now : Int) :
    List (String × Origin) :=
  if o.sellerId = "" then store
  else
    let nextValue := normalizeOriginRecord o now
    if (List.lookup o.sellerId store).isSome then
      store.map (fun p => if p.1 = o.sellerId then (o.sellerId, nextValue) else p)
    else store ++ [(o.sellerId, nextValue)]

/-- A persisted or cached origin counts only when it carries a postal code
(the truthy persisted?.postalCode check). -/
def originWithPostal (o : Option Origin) : Option Origin :=
  match o with
  | some p => if p.postalCode ≠ "" then some p else none
  | none => none

/-- ShippingService._getVariantMapping: cache hit returns immediately (the
get also touches the cache), a miss performs the live lookup and fills the
cache. -/
def getVariantMapping (cfg : CalcConfig) (wk : WebkulOracle) (now : Int)
    (variantId : String) (st : CalcState) : Except String (VariantMapping × CalcState) :=
  let got := mcGet st.variantCache variantId now
  let st1 := { st with variantCache := got.2 }
  match got.1 with
  | some m => .ok (m, st1)
  | none =>
    let st2 := { st1 with calls := st1.calls ++ [NetCall.variantLookup variantId] }
    match wk.resolveVariantToSeller variantId with
    | .ok m =>
      .ok (m, { st2 with
        variantCache := mcSet st2.variantCache variantId m cfg.variantTtlSeconds now
          cfg.cacheMaxEntries })
    | .error e => .error e

/-- ShippingService._getSellerOrigin: persisted store first, then the cache,
then a live lookup that fills the cache and upserts the persisted store; a
failed lookup degrades to the configured default origin postal code when one
is set, and otherwise rethrows. -/
def getSellerOrigin (cfg : CalcConfig) (wk : WebkulOracle) (now : Int)
    (sellerId : String) (st : CalcState) : Except String (Origin × CalcState) :=
  match originWithPostal (List.lookup sellerId st.sellerOriginStore) with
  | some p => .ok (p, st)
  | none =>
    let got := mcGet st.sellerCache sellerId now
    let st1 := { st with sellerCache := got.2 }
    match originWithPostal got.1 with
    | some c => .ok (c, st1)
    | none =>
      let st2 := { st1 with calls := st1.calls ++ [NetCall.sellerLookup sellerId] }
      match wk.resolveSellerOrigin sellerId with
      | .ok resolved =>
        .ok (resolved, { st2 with
          sellerCache := mcSet st2.sellerCache sellerId resolved cfg.sellerTtlSeconds now
            cfg.cacheMaxEntries
          sellerOriginStore := upsertOrigin st2.sellerOriginStore resolved now })
      | .error e =>
        let fallbackPostalCode :=
          normalizePostalCode cfg.defaultOriginPostalCode cfg.postalCodeLength
        if fallbackPostalCode ≠ "" then
          .ok ({ sellerId := sellerId, postalCode := fallbackPostalCode, city := ""
                 state := "", country := "ID", address1 := "", contact := ""
                 sellerEmail := "", storeName := "", storeNameHandle := ""
                 shopDomain := "", latitude := none, longitude := none
                 source := "default_origin", updatedAtMs := none }, st2)
        else .error e

/-! ## The quote request payload (ShippingService.calculate input) -/

/-- The destination block of a carrier-service rate request. -/
structure Destination where
  postal_code : Option String
  zip : Option String
  postalCode : Option String
  latitude : Option Rat
  longitude : Option Rat
deriving DecidableEq

/-- One cart line item of a rate request.  Numeric ids are given in their
decimal-string form (the source passes everything through String()); price
and grams are the Shopify subunit and gram numbers. -/
structure ReqItem where
  name : Option String
  sku : Option String
  variant_id : Option String
  quantity : Option Int
  grams : Option Int
  price : Option Int
  requires_shipping : JsBoolish
  length : Option Rat
  width : Option Rat
  height : Option Rat
  description : Option String
deriving DecidableEq

/-- A carrier-service rate request. -/
structure RateRequest where
  destination : Option Destination
  items : Option (List ReqItem)
  currency : Option String
deriving DecidableEq

/-- ShippingService._isShippable: absent requires_shipping defaults to
shippable, anything else goes through truthy. -/
def isShippable (i : ReqItem) : Bool :=
  match i.requires_shipping with
  | .undef => true
  | v => jsTruthy v

/-- ShippingService._normalizeVariantId. -/
def normalizeVariantId (i : ReqItem) : String :=
  match i.variant_id with
  | none => ""
  | some s => s

/-- The destination postal code of a request: first non-empty of
postal_code, zip, postalCode, then normalized. -/
def destinationPostalCode (cfg : CalcConfig) (q : RateRequest) : String :=
  normalizePostalCode
    (match q.destination with
     | some d => jsOrOptStr d.postal_code (jsOrOptStr d.zip (jsOrOptStr d.postalCode ""))
     | none => "")
    cfg.postalCodeLength

/-- Whether the request destination carries both coordinates (the
_toFiniteNumber checks: a present value is already a finite number here). -/
def hasDestinationCoordinates (q : RateRequest) : Bool :=
  (q.destination.bind Destination.latitude).isSome &&
    (q.destination.bind Destination.longitude).isSome

/-! ## Biteship request assembly for one seller group -/

/-- One item of a Biteship payload (ShippingService._buildBiteshipItem
output). -/
structure BItem where
  name : String
  value : Int
  weight : Int
  quantity : Int
  length : Option Rat
  width : Option Rat
  height : Option Rat
  description : Option String
deriving DecidableEq

/-- ShippingService._buildBiteshipItem. -/
def buildBiteshipItem (cfg : CalcConfig) (item : ReqItem) (m : VariantMapping) : BItem :=
  let quantity := max 1 (jsOrInt item.quantity 1)
  let grams :=
    jsOrIntChain (max 0 (item.grams.getD 0)) (max 0 (m.variantWeight.getD 0))
      cfg.defaultItemWeightGrams
  let priceMajor : Int := max 1 (roundedFromSubunits (item.price.getD 0))
  let len := max 0 (jsOrRat item.length (jsOrRat m.lengthCm 0))
  let wid := max 0 (jsOrRat item.width (jsOrRat m.widthCm 0))
  let hei := max 0 (jsOrRat item.height (jsOrRat m.heightCm 0))
  { name := jsOrOptStr item.name (jsOrOptStr item.sku "Product")
    value := priceMajor
    weight := grams
    quantity := quantity
    length := if 0 < len then some len else none
    width := if 0 < wid then some wid else none
    height := if 0 < hei then some hei else none
    description :=
      match item.description with
      | some s => if s = "" then none else some s
      | none => none }

/-- A seller group assembled by the grouping loop of calculate. -/
structure CalcGroup where
  sellerId : String
  originPostalCode : String
  originLatitude : Option Rat
  originLongitude : Option Rat
  items : List BItem
deriving DecidableEq

/-- An item skipped during grouping, with the recorded reason. -/
structure SkippedItem where
  variantId : String
  sellerId : Option String
  reason : String
deriving DecidableEq

/-- First-occurrence deduplication, as the JS Set constructor preserves
first-insertion order. -/
def jsUniq (l : List String) : List String :=
  l.foldl (fun acc x => if acc.contains x then acc else acc ++ [x]) []

/-- Append an item to the group of its seller, creating the group (with the
origin snapshot) on first sight, preserving first-seller order. -/
def groupsUpsert (groups : List CalcGroup) (sellerId : String) (origin : Origin)
    (item : BItem) : List CalcGroup :=
  if groups.any (fun g => g.sellerId == sellerId) then
    groups.map (fun g => if g.sellerId = sellerId then { g with items := g.items ++ [item] } else g)
  else
    groups ++ [{ sellerId := sellerId, originPostalCode := origin.postalCode
                 originLatitude := origin.latitude, originLongitude := origin.longitude
                 items := [item] }]

/-- The grouping loop of calculate: skip items with no variant mapping or no
usable seller origin, otherwise add them to their seller group. -/
def buildGroups (cfg : CalcConfig) (shippable : List ReqItem)
    (mappings : List (String × VariantMapping)) (origins : List (String × Origin)) :
    List CalcGroup × List SkippedItem :=
  shippable.foldl
    (fun acc item =>
      let vid := normalizeVariantId item
      match List.lookup vid mappings with
      | none =>
        (acc.1, acc.2 ++ [{ variantId := vid, sellerId := none
                            reason := "variant_mapping_not_found" }])
      | some mapping =>
        match List.lookup mapping.sellerId origins with
        | none =>
          (acc.1, acc.2 ++ [{ variantId := vid, sellerId := some mapping.sellerId
                              reason := "seller_origin_not_found" }])
        | some origin =>
          let hasOriginCoordinates := origin.latitude.isSome && origin.longitude.isSome
          if origin.postalCode = "" ∧ hasOriginCoordinates = false then
            (acc.1, acc.2 ++ [{ variantId := vid, sellerId := some mapping.sellerId
                                reason := "seller_origin_not_found" }])
          else
            (groupsUpsert acc.1 mapping.sellerId origin
              (buildBiteshipItem cfg item mapping), acc.2))
    ([], [])

/-! ## The quote pipeline (ShippingService.calculate) -/

/-- The rate query sent to the Biteship client for one seller group. -/
structure RatesQuery where
  originPostalCode : String
  destinationPostalCode : String
  originLatitude : Option Rat
  originLongitude : Option Rat
  destinationLatitude : Option Rat
  destinationLongitude : Option Rat
  items : List BItem
deriving DecidableEq

/-- The Biteship client surface used at quote time. -/
structure BiteshipOracle where
  getRates : RatesQuery → Except String (List Rate)

/-- The sequential variant-resolution loop of calculate. -/
def resolveVariantLoop (cfg : CalcConfig) (wk : WebkulOracle) (now : Int) :
    List String → CalcState → Except String (List (String × VariantMapping) × CalcState)
  | [], st => .ok ([], st)
  | v :: rest, st => do
    let (m, st1) ← getVariantMapping cfg wk now v st
    let (tail, st2) ← resolveVariantLoop cfg wk now rest st1
    .ok ((v, m) :: tail, st2)

/-- The sequential seller-origin-resolution loop of calculate. -/
def resolveOriginLoop (cfg : CalcConfig) (wk : WebkulOracle) (now : Int) :
    List String → CalcState → Except String (List (String × Origin) × CalcState)
  | [], st => .ok ([], st)
  | s :: rest, st => do
    let (o, st1) ← getSellerOrigin cfg wk now s st
    let (tail, st2) ← resolveOriginLoop cfg wk now rest st1
    .ok ((s, o) :: tail, st2)

/-- The per-group rate fan-out of calculate.  The source issues the requests
through Promise.all; results arrive in group order and any rejection rejects
the whole computation, which this sequential embedding preserves. -/
def fetchGroupRates (bs : BiteshipOracle) (destPC : String)
    (destLat destLng : Option Rat) :
    List CalcGroup → CalcState → Except String (List GroupRates × CalcState)
  | [], st => .ok ([], st)
  | g :: rest, st =>
    let st1 := { st with calls := st.calls ++ [NetCall.ratesRequest g.sellerId] }
    match bs.getRates
        { originPostalCode := g.originPostalCode, destinationPostalCode := destPC
          originLatitude := g.originLatitude, originLongitude := g.originLongitude
          destinationLatitude := destLat, destinationLongitude := destLng
          items := g.items } with
    | .ok rates => do
      let (tail, st2) ← fetchGroupRates bs destPC destLat destLng rest st1
      .ok ({ sellerId := g.sellerId, originPostalCode := g.originPostalCode
             rates := rates } :: tail, st2)
    | .error e => .error e

/-- The cart subtotal, carried in subunits: the source sums price over 100
times the clamped quantity in major units; this is that sum times 100,
exactly. -/
def subtotalSubunitsOf (shippable : List ReqItem) : Int :=
  shippable.foldl
    (fun acc item => acc + (item.price.getD 0) * max 1 (jsOrInt item.quantity 1))
    0

/-- The normalized item tuple entering the rate cache key:
(variant id, quantity, grams, price, requires_shipping). -/
def cacheKeyItem (i : ReqItem) : String × Int × Int × Int × Bool :=
  (normalizeVariantId i, jsOrInt i.quantity 1, i.grams.getD 0,
    i.price.getD 0, jsTruthy i.requires_shipping)

/-- Insertion into a list sorted ascending by the variant-id component. -/
def insertByVid (x : String × Int × Int × Int × Bool) :
    List (String × Int × Int × Int × Bool) → List (String × Int × Int × Int × Bool)
  | [] => [x]
  | h :: t => if x.1 < h.1 then x :: h :: t else h :: insertByVid x t

/-- Serialize one normalized cache-key item. -/
def cacheKeyItemStr (x : String × Int × Int × Int × Bool) : String :=
  "(vid=" ++ x.1 ++ ";q=" ++ toString x.2.1 ++ ";g=" ++ toString x.2.2.1 ++
    ";p=" ++ toString x.2.2.2.1 ++ ";rs=" ++ toString x.2.2.2.2 ++ ")"

/-- ShippingService._buildRateCacheKey: the stable serialization of the
normalized request, items sorted by variant id.  The sha256Hex digest of the
source is not modelled; the canonical serialization itself serves as the
(injective) cache key. -/
def buildRateCacheKey (cfg : CalcConfig) (q : RateRequest) : String :=
  let destLat := q.destination.bind Destination.latitude
  let destLng := q.destination.bind Destination.longitude
  let items0 := (q.items.getD []).map cacheKeyItem
  let items := items0.foldl (fun acc x => insertByVid x acc) []
  "pc=" ++ destinationPostalCode cfg q ++
    "|lat=" ++ (match destLat with | some v => toString v | none => "null") ++
    "|lng=" ++ (match destLng with | some v => toString v | none => "null") ++
    "|cur=" ++ jsOrOptStr q.currency cfg.currency ++
    "|couriers=" ++ String.intercalate "," cfg.couriers ++
    "|items=" ++ String.intercalate "," (items.map cacheKeyItemStr)

/-- The outcome of a quote computation: the rates, the debug reason for an
early empty return, and the debug source marker for a cache hit. -/
structure CalcOutcome where
  rates : List ShopifyRate
  reason : Option String
  source : Option String
deriving DecidableEq

/-- ShippingService.calculate, the checkout quote pipeline: validate the
payload, filter shippable items, require a destination, consult the rate
cache, resolve variants and seller origins, group by seller, fan out to
Biteship, aggregate, sort, cap, format and cache. -/
def calculate (cfg : CalcConfig) (wk : WebkulOracle) (bs : BiteshipOracle)
    (now : Int) (req : Option RateRequest) (st : CalcState) :
    Except String (CalcOutcome × CalcState) :=
  match req with
  | none => .ok ({ rates := [], reason := some "invalid_payload", source := none }, st)
  | some rateRequest =>
    let items := rateRequest.items.getD []
    let shippableItems := items.filter isShippable
    if shippableItems.length = 0 then
      .ok ({ rates := [], reason := some "no_shippable_items", source := none }, st)
    else
      let destPC := destinationPostalCode cfg rateRequest
      let destLat := rateRequest.destination.bind Destination.latitude
      let destLng := rateRequest.destination.bind Destination.longitude
      if destPC = "" ∧ hasDestinationCoordinates rateRequest = false then
        .ok ({ rates := [], reason := some "missing_destination_location", source := none }, st)
      else
        let rateCacheKey := buildRateCacheKey cfg rateRequest
        let got := mcGet st.rateCache rateCacheKey now
        let st0 := { st with rateCache := got.2 }
        match got.1 with
        | some cachedRates =>
          .ok ({ rates := cachedRates, reason := none, source := some "rate_cache" }, st0)
        | none =>
          let uniqueVariantIds :=
            jsUniq ((shippableItems.map normalizeVariantId).filter (fun v => v ≠ ""))
          if uniqueVariantIds.length = 0 then
            .ok ({ rates := [], reason := some "missing_variant_ids", source := none }, st0)
          else do
            let (variantMappings, st1) ←
              resolveVariantLoop cfg wk now uniqueVariantIds st0
            let uniqueSellerIds := jsUniq (variantMappings.map (fun p => p.2.sellerId))
            let (sellerOrigins, st2) ←
              resolveOriginLoop cfg wk now uniqueSellerIds st1
            let gs := buildGroups cfg shippableItems variantMappings sellerOrigins
            let sellerGroups := gs.1
            if sellerGroups.length = 0 then
              .ok ({ rates := [], reason := some "no_valid_seller_groups", source := none }, st2)
            else do
              let (groupRates, st3) ←
                fetchGroupRates bs destPC destLat destLng sellerGroups st2
              let subtotalSubunits := subtotalSubunitsOf shippableItems
              let aggregatedRates :=
                (sortByPrice
                  (aggregate groupRates subtotalSubunits cfg.handlingFeeIdr
                    cfg.freeThresholdIdr)).take cfg.maxRates
              let currency := jsOrOptStr rateRequest.currency cfg.currency
              let shopifyRates := aggregatedRates.map
                (fun r => toShopifyRate cfg.serviceNameBase cfg.phoneRequired r currency
                  sellerGroups.length r.fallback)
              let st4 := { st3 with
                rateCache := mcSet st3.rateCache rateCacheKey shopifyRates
                  cfg.rateTtlSeconds now cfg.cacheMaxEntries }
              .ok ({ rates := shopifyRates, reason := none, source := none }, st4)

/-! ## Biteship client retry loop (src/unnamed/part_001, class BiteshipClient)

The Retry-After header value is embedded by its JS parse outcome: absent (or
the empty string, both falsy), a string Number() accepts, a string
Date.parse accepts (carried as its millisecond delta from Date.now), or
anything else. -/

/-- The parse-relevant shape of a Retry-After response header. -/
inductive RetryAfterVal
  | absent
  | numeric (seconds : Rat)
  | httpDate (deltaMs : Int)
  | unparseable
deriving DecidableEq

/-- Math.round(seconds * 1000) on an exact rational second count:
Math.round is the floor of the value plus one half, so this is the floor
division of 2000 num + den by 2 den, exactly. -/
def roundSecondsToMs (seconds : Rat) : Int :=
  Int.fdiv (2000 * seconds.num + (seconds.den : Int)) (2 * (seconds.den : Int))

/-- parseRetryAfterMs: a numeric header is seconds, rounded to milliseconds
and clamped at 0; an HTTP-date header is its remaining-millisecond delta
clamped at 0; otherwise null. -/
def parseRetryAfterMs : RetryAfterVal → Option Int
  | .absent => none
  | .numeric seconds => some (max 0 (roundSecondsToMs seconds))
  | .httpDate deltaMs => some (max 0 deltaMs)
  | .unparseable => none

/-- The retry-relevant configuration of the Biteship client. -/
structure BiteshipCfg where
  maxRetries : Nat
  retryDelayMs : Int
deriving DecidableEq

/-- The delay before a retry: the parsed Retry-After value when it is
non-null and non-zero (JS or-chaining treats a parsed 0 as falsy), otherwise
the exponential backoff retryDelayMs times 2 to the attempt. -/
def backoffDelay (cfg : BiteshipCfg) (ra : RetryAfterVal) (attempt : Nat) : Int :=
  match parseRetryAfterMs ra with
  | some v => if v = 0 then cfg.retryDelayMs * 2 ^ attempt else v
  | none => cfg.retryDelayMs * 2 ^ attempt

/-- One scripted HTTP outcome for a rate request: a success carrying the
pricing list, or an axios error carrying the optional response status, body
and Retry-After header. -/
inductive BiteshipHttpResult
  | success (pricing : List Rate)
  | failure (status : Option Nat) (body : Option String) (retryAfter : RetryAfterVal)
deriving DecidableEq

/-- The wrapped terminal error thrown by getRates, carrying the upstream
status and response body in its details. -/
structure BiteshipError where
  status : Option Nat
  responseBody : Option String
deriving DecidableEq

/-- The retry condition: HTTP 429, 408 or any 5xx; an absent status (network
error without response) is terminal. -/
def isRetryableStatus : Option Nat → Bool
  | some s => s == 429 || s == 408 || decide (500 ≤ s)
  | none => false

/-- BiteshipClient.getRates, one scripted response per attempt: a success
returns the pricing filtered to positive prices; a retryable failure below
the retry budget sleeps for the computed delay (recorded in the returned
trace) and recurses with attempt + 1; anything else throws the wrapped
error.  An exhausted script is reported as a terminal error with no
status. -/
def getRatesGo (cfg : BiteshipCfg) :
    List BiteshipHttpResult → Nat → Except BiteshipError (List Rate) × List Int
  | [], _ => (.error { status := none, responseBody := none }, [])
  | .success pricing :: _, _ => (.ok (pricing.filter (fun r => 0 < r.price)), [])
  | .failure status body ra :: rest, attempt =>
    if isRetryableStatus status ∧ attempt < cfg.maxRetries then
      let d := backoffDelay cfg ra attempt
      let next := getRatesGo cfg rest (attempt + 1)
      (next.1, d :: next.2)
    else (.error { status := status, responseBody := body }, [])

/-- getRates entered at attempt 0. -/
def getRatesModel (cfg : BiteshipCfg) (resps : List BiteshipHttpResult) :
    Except BiteshipError (List Rate) × List Int :=
  getRatesGo cfg resps 0

/-! ## Order sync orchestrator
(src/src/services/rate-log-store.js, class OrderSyncService, and
src/src/services/order-sync-store.js, class OrderSyncStore)

The plan builder, the Shopify admin client and the fulfillment sub-call are
collaborator calls of the orchestrator and are embedded as Except-valued
oracles; timestamps (createdAt, updatedAt, requestedAt) are wall-clock
fields with no control-flow role and are omitted from the records. -/

/-- A shipment row inside an order-sync record. -/
structure Shipment where
  sellerId : String
  originPostalCode : String
  destinationPostalCode : String
  courierCompany : String
  courierType : String
  biteshipOrderId : String
  trackingNumber : String
  status : String
  responseStatus : String
  error : Option String
  shopifyFulfillmentId : Option String
  shopifyFulfillmentStatus : Option String
deriving DecidableEq

/-- An order-sync record (audit-only fields selectedShipping and
skippedItems are omitted; they are copied from the plan and never read). -/
structure SyncRecord where
  orderId : String
  orderName : String
  source : String
  autoFulfill : Bool
  status : String
  destinationPostalCode : String
  shipments : List Shipment
  lastError : Option String
deriving DecidableEq

/-- The order fields the orchestrator reads. -/
structure OrderInfo where
  id : String
  name : String
  currency : String
deriving DecidableEq

/-- The destination block of a built plan. -/
structure SyncDestination where
  name : String
  phone : String
  email : String
  postalCode : String
  address : String
  city : String
  province : String
deriving DecidableEq

/-- One seller group of a built plan, with the courier selection and seller
identity flattened in. -/
structure PlanGroup where
  sellerId : String
  origin : Origin
  sellerIdentityName : String
  sellerIdentityPhone : String
  sellerIdentityEmail : String
  items : List BItem
  shippingServiceCode : String
  courierCompany : String
  courierType : String
deriving DecidableEq

/-- A built order plan. -/
structure SyncPlan where
  destination : SyncDestination
  sellerGroups : List PlanGroup
deriving DecidableEq

/-- The already-normalized summary of a Biteship create-order response
(the multi-shape wire-payload fallbacks of _extractBiteshipOrderSummary are
abstracted to the extracted triple). -/
structure CreateResp where
  biteshipOrderId : String
  trackingNumber : String
  status : String
deriving DecidableEq

/-- The summary extraction: an empty status falls back to created. -/
def extractBiteshipOrderSummary (r : CreateResp) : CreateResp :=
  { r with status := if r.status = "" then "created" else r.status }

/-- The booking payload assembled by _buildOrderPayload (metadata block and
cargo mirror the source; stripEmpty on a string field means an empty string
counts as missing). -/
structure BookingPayload where
  shipperContactName : String
  shipperContactPhone : String
  shipperContactEmail : String
  originContactName : String
  originContactPhone : String
  originAddress : String
  originNote : String
  originPostalCode : String
  destinationContactName : String
  destinationContactPhone : String
  destinationContactEmail : String
  destinationAddress : String
  destinationNote : String
  destinationPostalCode : String
  courierCompany : String
  courierType : String
  deliveryType : String
  orderNote : String
  items : List BItem
deriving DecidableEq

/-- Address building: trim the parts, drop the empties, join with commas. -/
def buildAddressOf (parts : List String) : String :=
  String.intercalate ", " ((parts.map strTrim).filter (fun s => s ≠ ""))

/-- OrderSyncService._buildOrderPayload: assemble the payload and enforce
the mandatory-field checks in source order, each a terminal error for the
seller group. -/
def buildOrderPayload (order : OrderInfo) (dest : SyncDestination) (g : PlanGroup)
    (deliveryType : String) : Except String BookingPayload :=
  let originAddress :=
    buildAddressOf [g.origin.address1, g.origin.city, g.origin.state, g.origin.country]
  let p : BookingPayload :=
    { shipperContactName := g.sellerIdentityName
      shipperContactPhone := g.sellerIdentityPhone
      shipperContactEmail := g.sellerIdentityEmail
      originContactName := g.sellerIdentityName
      originContactPhone := g.sellerIdentityPhone
      originAddress := originAddress
      originNote := "seller_id:" ++ g.sellerId
      originPostalCode := g.origin.postalCode
      destinationContactName := dest.name
      destinationContactPhone := dest.phone
      destinationContactEmail := dest.email
      destinationAddress := dest.address
      destinationNote := strTrim (dest.city ++ " " ++ dest.province)
      destinationPostalCode := dest.postalCode
      courierCompany := g.courierCompany
      courierType := g.courierType
      deliveryType := deliveryType
      orderNote := "Shopify " ++ order.name ++ " | seller " ++ g.sellerId
      items := g.items }
  if p.originContactPhone = "" then
    .error ("Origin contact phone missing for seller " ++ g.sellerId)
  else if p.destinationContactPhone = "" then
    .error ("Destination phone missing for order " ++ order.id)
  else if p.originAddress = "" then
    .error ("Origin address missing for seller " ++ g.sellerId)
  else if p.destinationAddress = "" then
    .error ("Destination address missing for order " ++ order.id)
  else if p.originPostalCode = "" ∨ p.destinationPostalCode = "" then
    .error ("Origin/Destination postal code is required (seller " ++ g.sellerId ++ ")")
  else .ok p

/-- The orchestrator collaborators. -/
structure SyncDeps where
  shopifyConfigured : Bool
  getOrder : String → Except String OrderInfo
  buildPlan : OrderInfo → Except String SyncPlan
  createOrder : BookingPayload → Except String CreateResp
  getFulfillmentOrders : String → Except String Unit
  createShopifyFulfillment : PlanGroup → Shipment → Except String (Option (String × String))

/-- The orchestrator configuration slice. -/
structure SyncCfg where
  autoFulfillOnCreate : Bool
  notifyCustomerOnFulfill : Bool
  defaultDeliveryType : String
deriving DecidableEq

/-- The sync options accepted by createBiteshipOrdersFromOrder. -/
structure SyncOptions where
  autoFulfill : Option Bool
  notifyCustomer : Option Bool
  force : Bool
  source : Option String
deriving DecidableEq

/-- The durable order-sync store plus the event logs of the run: every
record handed to saveRecord (in order) and every sellerId for which a
Biteship create-order call was issued. -/
structure SyncState where
  store : List (String × SyncRecord)
  saves : List SyncRecord
  bookCalls : List String
deriving DecidableEq

/-- Replace-or-append into the keyed store. -/
def storeSet (store : List (String × SyncRecord)) (k : String) (r : SyncRecord) :
    List (String × SyncRecord) :=
  if (List.lookup k store).isSome then
    store.map (fun p => if p.1 = k then (k, r) else p)
  else store ++ [(k, r)]

/-- OrderSyncStore.saveRecord: upsert the record under its orderId and
persist the whole store (the persist event is logged in saves; the spread
merge with the previous record resolves to the new record because every
record field is written on every save, and the createdAt and updatedAt
timestamps are omitted here). -/
def saveRecord (st : SyncState) (r : SyncRecord) : SyncState :=
  { st with store := storeSet st.store r.orderId r, saves := st.saves ++ [r] }

/-- The result object returned by createBiteshipOrdersFromOrder. -/
structure SyncResult where
  ok : Bool
  skipped : Bool
  reason : Option String
  record : SyncRecord
deriving DecidableEq

/-- A failed shipment row (the failed branch never carries a booking id). -/
def failedShipment (dest : SyncDestination) (g : PlanGroup) (e : String) : Shipment :=
  { sellerId := g.sellerId, originPostalCode := g.origin.postalCode
    destinationPostalCode := dest.postalCode, courierCompany := g.courierCompany
    courierType := g.courierType, biteshipOrderId := "", trackingNumber := ""
    status := "failed", responseStatus := "", error := some e
    shopifyFulfillmentId := none, shopifyFulfillmentStatus := none }

/-- A created shipment row built from the parsed create-order response. -/
def createdShipment (dest : SyncDestination) (g : PlanGroup) (parsed : CreateResp) :
    Shipment :=
  { sellerId := g.sellerId, originPostalCode := g.origin.postalCode
    destinationPostalCode := dest.postalCode, courierCompany := g.courierCompany
    courierType := g.courierType, biteshipOrderId := parsed.biteshipOrderId
    trackingNumber := parsed.trackingNumber, status := "created"
    responseStatus := parsed.status, error := none
    shopifyFulfillmentId := none, shopifyFulfillmentStatus := none }

/-- The outcome of processing one seller group that was not kept from a
prior run: the shipment row, whether the group failed, and whether a
Biteship create-order call was issued. -/
structure GroupOutcome where
  shipment : Shipment
  failed : Bool
  calledBooking : Bool
deriving DecidableEq

/-- The try block of the per-group loop: build the payload, create the
Biteship order, optionally create the Shopify fulfillment; any error is
caught and recorded as a failed shipment without aborting the run. -/
def processGroup (deps : SyncDeps) (cfg : SyncCfg) (order : OrderInfo)
    (dest : SyncDestination) (autoFulfill : Bool) (g : PlanGroup) : GroupOutcome :=
  match buildOrderPayload order dest g cfg.defaultDeliveryType with
  | .error e => { shipment := failedShipment dest g e, failed := true, calledBooking := false }
  | .ok payload =>
    match deps.createOrder payload with
    | .error e => { shipment := failedShipment dest g e, failed := true, calledBooking := true }
    | .ok resp =>
      let parsed := extractBiteshipOrderSummary resp
      let base := createdShipment dest g parsed
      if autoFulfill then
        match deps.createShopifyFulfillment g base with
        | .error e =>
          { shipment := failedShipment dest g e, failed := true, calledBooking := true }
        | .ok none => { shipment := base, failed := false, calledBooking := true }
        | .ok (some fr) =>
          { shipment :=
              { base with
                shopifyFulfillmentId := some fr.1,
                shopifyFulfillmentStatus := some fr.2 }
            failed := false, calledBooking := true }
      else { shipment := base, failed := false, calledBooking := true }

/-- The reuse check of the per-group loop: without force, a prior shipment
of this seller with status created is kept as-is. -/
def keptShipment (force : Bool) (prevShipments : List Shipment) (g : PlanGroup) :
    Option Shipment :=
  if force then none
  else
    match prevShipments.find? (fun s => s.sellerId == g.sellerId) with
    | some p => if p.status == "created" then some p else none
    | none => none

/-- The per-group loop of createBiteshipOrdersFromOrder: one shipment per
group (kept or freshly processed), the has-failure flag, and the sellerIds
for which a booking call was issued. -/
def processGroups (deps : SyncDeps) (cfg : SyncCfg) (order : OrderInfo)
    (dest : SyncDestination) (autoFulfill force : Bool)
    (prevShipments : List Shipment) : List PlanGroup → List Shipment × Bool × List String
  | [] => ([], false, [])
  | g :: rest =>
    let tail := processGroups deps cfg order dest autoFulfill force prevShipments rest
    match keptShipment force prevShipments g with
    | some p => (p :: tail.1, tail.2.1, tail.2.2)
    | none =>
      let o := processGroup deps cfg order dest autoFulfill g
      (o.shipment :: tail.1, o.failed || tail.2.1,
        if o.calledBooking then g.sellerId :: tail.2.2 else tail.2.2)

/-- The shipment a given seller group contributes to the run record: the
kept prior shipment when the reuse check fires, otherwise the freshly
processed outcome. -/
def groupShipmentFor (deps : SyncDeps) (cfg : SyncCfg) (order : OrderInfo)
    (dest : SyncDestination) (autoFulfill force : Bool) (prevShipments : List Shipment)
    (g : PlanGroup) : Shipment :=
  match keptShipment force prevShipments g with
  | some p => p
  | none => (processGroup deps cfg order dest autoFulfill g).shipment

/-- Whether a given seller group contributes a new failure in this run. -/
def newFailureFlag (deps : SyncDeps) (cfg : SyncCfg) (order : OrderInfo)
    (dest : SyncDestination) (autoFulfill force : Bool) (prevShipments : List Shipment)
    (g : PlanGroup) : Bool :=
  match keptShipment force prevShipments g with
  | some _ => false
  | none => (processGroup deps cfg order dest autoFulfill g).failed

/-- The booking call a given seller group issues in this run, if any. -/
def callFor (deps : SyncDeps) (cfg : SyncCfg) (order : OrderInfo)
    (dest : SyncDestination) (autoFulfill force : Bool) (prevShipments : List Shipment)
    (g : PlanGroup) : Option String :=
  match keptShipment force prevShipments g with
  | some _ => none
  | none =>
    if (processGroup deps cfg order dest autoFulfill g).calledBooking then some g.sellerId
    else none

/-- The processing record written before the per-group loop. -/
def processingRecordOf (order : OrderInfo) (plan : SyncPlan) (sourceTag : String)
    (autoFulfill : Bool) : SyncRecord :=
  { orderId := order.id, orderName := order.name, source := sourceTag
    autoFulfill := autoFulfill, status := "processing"
    destinationPostalCode := plan.destination.postalCode
    shipments := [], lastError := none }

/-- The prior shipments visible to a run: those of the stored record of the
order, none when the order has no record yet. -/
def prevShipmentsOf (st : SyncState) (order : OrderInfo) : List Shipment :=
  ((List.lookup order.id st.store).map SyncRecord.shipments).getD []

/-- The tail of createBiteshipOrdersFromOrder once the idempotency check has
passed: build the plan, persist the processing record, optionally fetch the
fulfillment orders, process every seller group, and persist the final
record.  A collaborator error thrown here propagates as in the source (the
durable writes already performed are not represented on the error path). -/
def runSync (deps : SyncDeps) (cfg : SyncCfg) (order : OrderInfo)
    (autoFulfill _notifyCustomer force : Bool) (sourceTag : String)
    (prevShipments : List Shipment) (st : SyncState) :
    Except String (SyncResult × SyncState) :=
  match deps.buildPlan order with
  | .error e => .error e
  | .ok plan =>
    let rec0 := processingRecordOf order plan sourceTag autoFulfill
    let st1 := saveRecord st rec0
    match (if autoFulfill then deps.getFulfillmentOrders order.id else .ok ()) with
    | .error e => .error e
    | .ok _ =>
      let pg := processGroups deps cfg order plan.destination autoFulfill force
        prevShipments plan.sellerGroups
      let hasFailure := pg.2.1
      let recF := { rec0 with
        shipments := pg.1
        status := if hasFailure then "partial_failed" else "completed"
        lastError :=
          if hasFailure then some "One or more seller shipments failed" else none }
      let st2 := saveRecord { st1 with bookCalls := st1.bookCalls ++ pg.2.2 } recF
      .ok ({ ok := !hasFailure, skipped := false, reason := none, record := recF }, st2)

/-- OrderSyncService.createBiteshipOrdersFromOrder: resolve the options,
fetch the order, and return the existing record untouched when it is
completed and force is off; otherwise run the sync. -/
def createBiteshipOrdersFromOrder (deps : SyncDeps) (cfg : SyncCfg) (orderIdArg : String)
    (opts : SyncOptions) (st : SyncState) : Except String (SyncResult × SyncState) :=
  if deps.shopifyConfigured = false then
    .error "Shopify Admin API is not configured"
  else
    match deps.getOrder orderIdArg with
    | .error e => .error e
    | .ok order =>
      let autoFulfill := opts.autoFulfill.getD cfg.autoFulfillOnCreate
      let notifyCustomer := opts.notifyCustomer.getD cfg.notifyCustomerOnFulfill
      let force := opts.force
      let sourceTag := opts.source.getD "admin_dashboard"
      match List.lookup order.id st.store with
      | some existing =>
        if force = false ∧ existing.status = "completed" then
          .ok ({ ok := true, skipped := true, reason := some "already_completed"
                 record := existing }, st)
        else
          runSync deps cfg order autoFulfill notifyCustomer force sourceTag
            existing.shipments st
      | none =>
        runSync deps cfg order autoFulfill notifyCustomer force sourceTag [] st

/-! ## Concrete data for the worked examples
(the fixture values of src/test/shipping-service.test.js and
src/test/order-sync-service.test.js) -/

/-- The test configuration of the shipping-service test fixture. -/
def exCfg : CalcConfig :=
  { postalCodeLength := 5, currency := "IDR", couriers := ["jne", "sicepat", "jnt"]
    handlingFeeIdr := 0, freeThresholdIdr := 0, maxRates := 5
    defaultItemWeightGrams := 1000, defaultOriginPostalCode := ""
    serviceNameBase := "Marketplace", phoneRequired := true
    variantTtlSeconds := 3600, sellerTtlSeconds := 3600, rateTtlSeconds := 300
    cacheMaxEntries := 100 }

/-- Variant 1001 belongs to seller 501. -/
def exMappingA : VariantMapping :=
  { shopifyVariantId := "1001", sellerId := "501", variantWeight := none
    lengthCm := none, widthCm := none, heightCm := none }

/-- Variant 1002 belongs to seller 502. -/
def exMappingB : VariantMapping :=
  { shopifyVariantId := "1002", sellerId := "502", variantWeight := none
    lengthCm := none, widthCm := none, heightCm := none }

/-- Seller 501 ships from 10110 (the test stub resolves only sellerId and
postalCode; every other field is absent). -/
def exQuoteOriginA : Origin :=
  { sellerId := "501", postalCode := "10110", city := "", state := "", country := ""
    address1 := "", contact := "", sellerEmail := "", storeName := ""
    storeNameHandle := "", shopDomain := "", latitude := none, longitude := none
    source := "", updatedAtMs := none }

/-- Seller 502 ships from 60291. -/
def exQuoteOriginB : Origin :=
  { sellerId := "502", postalCode := "60291", city := "", state := "", country := ""
    address1 := "", contact := "", sellerEmail := "", storeName := ""
    storeNameHandle := "", shopDomain := "", latitude := none, longitude := none
    source := "", updatedAtMs := none }

/-- The Webkul oracle of the test fixture. -/
def exWebkul : WebkulOracle :=
  { resolveVariantToSeller := fun v => if v = "1001" then .ok exMappingA else .ok exMappingB
    resolveSellerOrigin := fun sid =>
      if sid = "501" then .ok exQuoteOriginA else .ok exQuoteOriginB }

/-- JNE REG at 22000 from seller A. -/
def rateJneRegA : Rate :=
  { courierName := "JNE", courierCode := "jne", serviceName := "REG", serviceCode := "reg"
    price := 22000, minDay := 2, maxDay := 3 }

/-- SiCepat BEST at 19000 from seller A. -/
def rateSicepatBestA : Rate :=
  { courierName := "SiCepat", courierCode := "sicepat", serviceName := "BEST"
    serviceCode := "best", price := 19000, minDay := 1, maxDay := 2 }

/-- JNE REG at 18000 from seller B. -/
def rateJneRegB : Rate :=
  { courierName := "JNE", courierCode := "jne", serviceName := "REG", serviceCode := "reg"
    price := 18000, minDay := 2, maxDay := 4 }

/-- SiCepat BEST at 25000 from seller B. -/
def rateSicepatBestB : Rate :=
  { courierName := "SiCepat", courierCode := "sicepat", serviceName := "BEST"
    serviceCode := "best", price := 25000, minDay := 2, maxDay := 2 }

/-- IDExpress STD at 15000 from seller B. -/
def rateIdExpressB : Rate :=
  { courierName := "IDExpress", courierCode := "idexpress", serviceName := "STD"
    serviceCode := "std", price := 15000, minDay := 1, maxDay := 2 }

/-- The Biteship oracle for the common-key aggregation example. -/
def exBiteshipCommon : BiteshipOracle :=
  { getRates := fun qy =>
      if qy.originPostalCode = "10110" then .ok [rateJneRegA, rateSicepatBestA]
      else .ok [rateJneRegB, rateSicepatBestB] }

/-- The Biteship oracle for the disjoint-courier fallback example. -/
def exBiteshipDisjoint : BiteshipOracle :=
  { getRates := fun qy =>
      if qy.originPostalCode = "10110" then .ok [rateJneRegA]
      else .ok [rateIdExpressB] }

/-- Cart item 1: variant 1001, 15000000 subunits. -/
def exItem1 : ReqItem :=
  { name := some "Item 1", sku := none, variant_id := some "1001", quantity := some 1
    grams := some 300, price := some 15000000, requires_shipping := .jbool true
    length := none, width := none, height := none, description := none }

/-- Cart item 2: variant 1002, 20000000 subunits. -/
def exItem2 : ReqItem :=
  { name := some "Item 2", sku := none, variant_id := some "1002", quantity := some 1
    grams := some 500, price := some 20000000, requires_shipping := .jbool true
    length := none, width := none, height := none, description := none }

/-- The two-seller rate request of the test fixture. -/
def exReq : RateRequest :=
  { destination := some
      { postal_code := some "40111", zip := none, postalCode := none
        latitude := none, longitude := none }
    items := some [exItem1, exItem2], currency := some "IDR" }

/-- The per-seller rate responses of the common-key example, as they reach
_aggregate. -/
def exGroupRatesCommon : List GroupRates :=
  [{ sellerId := "501", originPostalCode := "10110"
     rates := [rateJneRegA, rateSicepatBestA] },
   { sellerId := "502", originPostalCode := "60291"
     rates := [rateJneRegB, rateSicepatBestB] }]

/-- The per-seller rate responses of the disjoint-courier example. -/
def exGroupRatesDisjoint : List GroupRates :=
  [{ sellerId := "501", originPostalCode := "10110", rates := [rateJneRegA] },
   { sellerId := "502", originPostalCode := "60291", rates := [rateIdExpressB] }]

/-- The pristine quote-time state: empty caches, empty persisted store. -/
def emptyCalcState : CalcState :=
  { variantCache := [], sellerCache := [], rateCache := [], sellerOriginStore := []
    calls := [] }

/-- A cart whose only item explicitly requires no shipping. -/
def exReqNoShippable : RateRequest :=
  { destination := some
      { postal_code := some "40111", zip := none, postalCode := none
        latitude := none, longitude := none }
    items := some [{ exItem1 with requires_shipping := .jbool false }]
    currency := some "IDR" }

/-- A cart with a shippable item but no destination block at all. -/
def exReqNoDestination : RateRequest :=
  { destination := none, items := some [exItem1], currency := some "IDR" }

/-! Concrete order-sync fixtures. -/

/-- The order-sync configuration slice of the test fixture. -/
def exSyncCfg : SyncCfg :=
  { autoFulfillOnCreate := false, notifyCustomerOnFulfill := false
    defaultDeliveryType := "now" }

/-- The order under sync. -/
def exOrder : OrderInfo := { id := "9001", name := "#1001", currency := "IDR" }

/-- The destination of the order, with every mandatory booking field set. -/
def exSyncDest : SyncDestination :=
  { name := "Budi", phone := "0812000111", email := "buyer@shop.id"
    postalCode := "40111", address := "Jl. Merdeka 2, Bandung"
    city := "Bandung", province := "Jawa Barat" }

/-- Seller 501 full origin (address data present for the booking payload). -/
def exSyncOrigin1 : Origin :=
  { sellerId := "501", postalCode := "10110", city := "Jakarta", state := "DKI"
    country := "ID", address1 := "Jl. Sudirman 1", contact := "", sellerEmail := ""
    storeName := "", storeNameHandle := "", shopDomain := "", latitude := none
    longitude := none, source := "persisted", updatedAtMs := none }

/-- Seller 502 full origin. -/
def exSyncOrigin2 : Origin :=
  { sellerId := "502", postalCode := "60291", city := "Surabaya", state := "Jawa Timur"
    country := "ID", address1 := "Jl. Pemuda 5", contact := "", sellerEmail := ""
    storeName := "", storeNameHandle := "", shopDomain := "", latitude := none
    longitude := none, source := "persisted", updatedAtMs := none }

/-- A cargo item for the bookings. -/
def exSyncBItem : BItem :=
  { name := "Item 1", value := 150000, weight := 300, quantity := 1
    length := none, width := none, height := none, description := none }

/-- Seller group 1 of the plan. -/
def exPlanG1 : PlanGroup :=
  { sellerId := "501", origin := exSyncOrigin1, sellerIdentityName := "Seller A"
    sellerIdentityPhone := "0811000501", sellerIdentityEmail := "a@sellers.id"
    items := [exSyncBItem], shippingServiceCode := "BSH_JNE_REG"
    courierCompany := "jne", courierType := "reg" }

/-- Seller group 2 of the plan. -/
def exPlanG2 : PlanGroup :=
  { sellerId := "502", origin := exSyncOrigin2, sellerIdentityName := "Seller B"
    sellerIdentityPhone := "0811000502", sellerIdentityEmail := "b@sellers.id"
    items := [exSyncBItem], shippingServiceCode := "BSH_JNE_REG"
    courierCompany := "jne", courierType := "reg" }

/-- The two-seller sync plan. -/
def exPlan : SyncPlan := { destination := exSyncDest, sellerGroups := [exPlanG1, exPlanG2] }

/-- Orchestrator collaborators for which every call succeeds. -/
def exSyncDepsOk : SyncDeps :=
  { shopifyConfigured := true
    getOrder := fun _ => .ok exOrder
    buildPlan := fun _ => .ok exPlan
    createOrder := fun p =>
      .ok { biteshipOrderId := "bs_" ++ p.courierCompany ++ "_" ++ p.originPostalCode
            trackingNumber := "wb1", status := "" }
    getFulfillmentOrders := fun _ => .ok ()
    createShopifyFulfillment := fun _ _ => .ok none }

/-- Orchestrator collaborators where the booking call of seller 502
rejects. -/
def exSyncDepsG2Fails : SyncDeps :=
  { exSyncDepsOk with
    createOrder := fun p =>
      if p.originNote = "seller_id:502" then .error "courier rejected"
      else
        .ok { biteshipOrderId := "bs_" ++ p.courierCompany ++ "_" ++ p.originPostalCode
              trackingNumber := "wb1", status := "" } }

/-- The pristine sync state. -/
def emptySyncState : SyncState := { store := [], saves := [], bookCalls := [] }

/-- Default sync options (force off, nothing overridden). -/
def exSyncOpts : SyncOptions :=
  { autoFulfill := none, notifyCustomer := none, force := false, source := none }

/-- A completed record from a previous run for the same order. -/
def exCompletedShipment1 : Shipment :=
  { sellerId := "501", originPostalCode := "10110", destinationPostalCode := "40111"
    courierCompany := "jne", courierType := "reg", biteshipOrderId := "bs_prior_1"
    trackingNumber := "wbA", status := "created", responseStatus := "created"
    error := none, shopifyFulfillmentId := none, shopifyFulfillmentStatus := none }

/-- The completed prior-run shipment of seller 502. -/
def exCompletedShipment2 : Shipment :=
  { sellerId := "502", originPostalCode := "60291", destinationPostalCode := "40111"
    courierCompany := "jne", courierType := "reg", biteshipOrderId := "bs_prior_2"
    trackingNumber := "wbB", status := "created", responseStatus := "created"
    error := none, shopifyFulfillmentId := none, shopifyFulfillmentStatus := none }

/-- A completed sync record for the order. -/
def exCompletedRecord : SyncRecord :=
  { orderId := "9001", orderName := "#1001", source := "admin_dashboard"
    autoFulfill := false, status := "completed", destinationPostalCode := "40111"
    shipments := [exCompletedShipment1, exCompletedShipment2], lastError := none }

/-- A prior partial-failure record: seller 501 created, seller 502 failed. -/
def exPartialRecord : SyncRecord :=
  { orderId := "9001", orderName := "#1001", source := "admin_dashboard"
    autoFulfill := false, status := "partial_failed", destinationPostalCode := "40111"
    shipments := [exCompletedShipment1,
      { sellerId := "502", originPostalCode := "60291", destinationPostalCode := "40111"
        courierCompany := "jne", courierType := "reg", biteshipOrderId := ""
        trackingNumber := "", status := "failed", responseStatus := ""
        error := some "courier rejected", shopifyFulfillmentId := none
        shopifyFulfillmentStatus := none }]
    lastError := some "One or more seller shipments failed" }

/-- The sync state holding the completed record (the C4 scenario). -/
def exStateCompleted : SyncState :=
  { emptySyncState with store := [("9001", exCompletedRecord)] }

/-- The sync state holding the partial-failure record (the C5 scenario). -/
def exStatePartial : SyncState :=
  { emptySyncState with store := [("9001", exPartialRecord)] }

/-- The record produced by re-running the order of exStatePartial against
exSyncDepsG2Fails: seller 501 keeps its prior created shipment, seller 502
is re-attempted and fails again. -/
def exRerunRecord : SyncRecord :=
  { orderId := "9001", orderName := "#1001", source := "admin_dashboard"
    autoFulfill := false, status := "partial_failed", destinationPostalCode := "40111"
    shipments := [exCompletedShipment1, failedShipment exSyncDest exPlanG2 "courier rejected"]
    lastError := some "One or more seller shipments failed" }

/-- The sync result of that re-run. -/
def exRerunResult : SyncResult :=
  { ok := false, skipped := false, reason := none, record := exRerunRecord }

/-- The sync state after that re-run: the stored record replaced, two
persists logged, and one booking call issued for seller 502 only. -/
def exRerunState : SyncState :=
  { store := [("9001", exRerunRecord)]
    saves := [processingRecordOf exOrder exPlan "admin_dashboard" false, exRerunRecord]
    bookCalls := ["502"] }

/-! ## Helper lemmas on the aggregation core -/

/-- The price component of the per-key fold is the per-key price sum. -/
theorem aggKeyFold_totalPrice (ngs : List NormGroup) (k : String) :
    (aggKeyFold ngs k).totalPrice = keyPriceSum ngs k := by
  have aux : ∀ (l : List NormGroup) (acc : AggAcc),
      (List.foldl (aggKeyStep k) acc l).totalPrice = acc.totalPrice + keyPriceSum l k := by
    intro l
    induction l with
    | nil => intro acc; simp [keyPriceSum]
    | cons g rest ih =>
      intro acc
      simp only [List.foldl_cons, keyPriceSum]
      rw [ih]
      cases h : List.lookup k g.byKey with
      | none => simp [aggKeyStep, h]
      | some r =>
        simp [aggKeyStep, h]
        ring
  unfold aggKeyFold
  rw [aux]
  simp

/-- With a non-empty key intersection, _aggregate returns exactly the mapped
per-key combined rates. -/
theorem aggregate_of_commonKeys_ne_nil (groupRates : List GroupRates)
    (subtotalSubunits handlingFeeIdr freeThresholdIdr : Int)
    (h : commonKeysList (groupRates.map normalizeGroup) ≠ []) :
    aggregate groupRates subtotalSubunits handlingFeeIdr freeThresholdIdr =
      (commonKeysList (groupRates.map normalizeGroup)).map
        (aggForKey (groupRates.map normalizeGroup) subtotalSubunits
          (max 0 handlingFeeIdr) (max 0 freeThresholdIdr)) := by
  have hlen : 0 < ((commonKeysList (groupRates.map normalizeGroup)).map
      (aggForKey (groupRates.map normalizeGroup) subtotalSubunits
        (max 0 handlingFeeIdr) (max 0 freeThresholdIdr))).length := by
    rw [List.length_map]
    exact List.length_pos.mpr h
  unfold aggregate
  simp only [hlen, if_pos]

/-- dedupStep never shrinks the keyed map. -/
theorem dedupStep_length (m : List (String × Rate)) (r : Rate) :
    m.length ≤ (dedupStep m r).length := by
  unfold dedupStep
  cases h : List.lookup (rateKey r) m with
  | none => simp [h]
  | some ex =>
    by_cases hp : r.price < ex.price <;> simp [h, hp]

/-- Folding dedupStep never shrinks the keyed map. -/
theorem foldl_dedupStep_length (l : List Rate) :
    ∀ m : List (String × Rate), m.length ≤ (List.foldl dedupStep m l).length := by
  induction l with
  | nil => intro m; simp
  | cons r rest ih =>
    intro m
    calc m.length ≤ (dedupStep m r).length := dedupStep_length m r
    _ ≤ (List.foldl dedupStep (dedupStep m r) rest).length := ih _

/-- A group with at least one quote has a non-empty deduplicated map. -/
theorem dedupe_ne_nil (rs : List Rate) (h : rs ≠ []) : dedupe rs ≠ [] := by
  cases rs with
  | nil => exact absurd rfl h
  | cons r rest =>
    unfold dedupe
    simp only [List.foldl_cons]
    have h1 : (dedupStep [] r).length = 1 := by simp [dedupStep]
    have h2 := foldl_dedupStep_length rest (dedupStep [] r)
    intro hnil
    rw [hnil] at h2
    simp [h1] at h2

/-- The cheapest selection of a non-empty list exists. -/
theorem firstMinByPrice_isSome (l : List Rate) (h : l ≠ []) :
    (firstMinByPrice l).isSome = true := by
  cases l with
  | nil => exact absurd rfl h
  | cons r rest =>
    unfold firstMinByPrice
    simp only [List.foldl_cons]
    have aux : ∀ (t : List Rate) (b : Rate), (List.foldl firstMinStep (some b) t).isSome = true := by
      intro t
      induction t with
      | nil => intro b; simp
      | cons x t2 ih =>
        intro b
        simp only [List.foldl_cons, firstMinStep]
        by_cases hx : x.price < b.price <;> simp [hx, ih]
    simpa [firstMinStep] using aux rest r

/-- Lookup succeeds exactly on the stored keys. -/
theorem lookup_isSome_iff_mem {β : Type} (m : List (String × β)) (k : String) :
    (List.lookup k m).isSome = true ↔ k ∈ m.map (fun p => p.1) := by
  induction m with
  | nil => simp [List.lookup]
  | cons e t ih =>
    by_cases h : k = e.1
    · simp [List.lookup, h]
    · have hb : (k == e.1) = false := by simpa using h
      simp [List.lookup, hb, ih, h]

/-- Membership in a fold of intersection filters implies membership in the
seed and presence in every filtered group. -/
theorem mem_foldl_commonKeyFilterStep (rest : List NormGroup) :
    ∀ (init : List String) (k : String),
      k ∈ List.foldl commonKeyFilterStep init rest →
        k ∈ init ∧ ∀ h ∈ rest, (List.lookup k h.byKey).isSome = true := by
  induction rest with
  | nil => intro init k hk; simpa using hk
  | cons h t ih =>
    intro init k hk
    simp only [List.foldl_cons] at hk
    obtain ⟨h1, h2⟩ := ih (commonKeyFilterStep init h) k hk
    rw [commonKeyFilterStep, List.mem_filter] at h1
    refine ⟨h1.1, ?_⟩
    intro g hg
    rcases List.mem_cons.mp hg with hg | hg
    · subst hg; exact h1.2
    · exact h2 g hg

/-- A common key is present in every group. -/
theorem mem_commonKeysList (ngs : List NormGroup) (k : String)
    (hk : k ∈ commonKeysList ngs) :
    ∀ g ∈ ngs, (List.lookup k g.byKey).isSome = true := by
  cases ngs with
  | nil => simp [commonKeysList] at hk
  | cons g rest =>
    unfold commonKeysList at hk
    obtain ⟨h1, h2⟩ := mem_foldl_commonKeyFilterStep rest _ k hk
    intro g2 hg2
    rcases List.mem_cons.mp hg2 with hg2 | hg2
    · subst hg2
      exact (lookup_isSome_iff_mem g2.byKey k).mpr h1
    · exact h2 g2 hg2

/-! ## Claim theorems -/

/-- Claim C1: whenever the deduplicated rate sets of the seller groups share
common (courierCode, serviceCode) keys, the aggregation returns one combined
rate per common key, whose price is the sum over the groups of the per-key
price plus the flat handling fee, zeroed when the subtotal reaches an active
free-shipping threshold; in particular the two-seller fixture (JNE REG at
22000 and 18000, SiCepat BEST at 19000 and 25000, no fee, no threshold)
quotes total_price strings 4000000 and 4400000 in minor units. -/
theorem claim_C1 :
    (∀ (groupRates : List GroupRates) (subtotalSubunits handlingFeeIdr freeThresholdIdr : Int),
      commonKeysList (groupRates.map normalizeGroup) ≠ [] →
        (aggregate groupRates subtotalSubunits handlingFeeIdr freeThresholdIdr).length =
          (commonKeysList (groupRates.map normalizeGroup)).length)
    ∧ (∀ (groupRates : List GroupRates) (subtotalSubunits handlingFeeIdr freeThresholdIdr : Int)
        (k : String), k ∈ commonKeysList (groupRates.map normalizeGroup) →
        ∃ r ∈ aggregate groupRates subtotalSubunits handlingFeeIdr freeThresholdIdr,
          r.fallback = false ∧
            r.totalPriceIdr =
              applyFeeRule subtotalSubunits handlingFeeIdr freeThresholdIdr
                (keyPriceSum (groupRates.map normalizeGroup) k))
    ∧ (calculate exCfg exWebkul exBiteshipCommon 0 (some exReq) emptyCalcState).map
        (fun p => p.1.rates.map (fun r => (r.service_code, r.total_price))) =
        .ok [("BSH_JNE_REG", "4000000"), ("BSH_SICEPAT_BEST", "4400000")] := by
  refine ⟨?_, ?_, ?_⟩
  · intro gr s fee thr h
    rw [aggregate_of_commonKeys_ne_nil gr s fee thr h, List.length_map]
  · intro gr s fee thr k hk
    rw [aggregate_of_commonKeys_ne_nil gr s fee thr (List.ne_nil_of_mem hk)]
    refine ⟨aggForKey (gr.map normalizeGroup) s (max 0 fee) (max 0 thr) k,
      List.mem_map_of_mem _ hk, rfl, ?_⟩
    simp only [aggForKey, applyFeeRule, aggKeyFold_totalPrice]
  · rfl

/-- Worked instance of claim C1 on the two-seller fixture groups. -/
theorem claim_C1_witness :
    (commonKeysList (exGroupRatesCommon.map normalizeGroup) ≠ [] ∧
      (aggregate exGroupRatesCommon 35000000 0 0).length =
        (commonKeysList (exGroupRatesCommon.map normalizeGroup)).length) ∧
    ("jne__reg" ∈ commonKeysList (exGroupRatesCommon.map normalizeGroup) ∧
      ∃ r ∈ aggregate exGroupRatesCommon 35000000 0 0,
        r.fallback = false ∧
          r.totalPriceIdr =
            applyFeeRule 35000000 0 0
              (keyPriceSum (exGroupRatesCommon.map normalizeGroup) "jne__reg")) :=
  ⟨⟨by decide, claim_C1.1 exGroupRatesCommon 35000000 0 0 (by decide)⟩,
   ⟨by decide, claim_C1.2.1 exGroupRatesCommon 35000000 0 0 "jne__reg" (by decide)⟩⟩

/-- Claim C2: with an empty key intersection the aggregation returns exactly
one synthetic mixed-cheapest rate summing the cheapest quote of each group
under the same fee and threshold rule; the Shopify formatting tags every
fallback rate with the fixed service code BSH_MULTI_CHEAPEST; and when some
seller group has no quote at all, nothing is returned, not even the
fallback.  The disjoint-courier fixture (JNE REG 22000 only against
IDExpress STD 15000 only) quotes the single fallback total_price 3700000. -/
theorem claim_C2 :
    (∀ (groupRates : List GroupRates) (subtotalSubunits handlingFeeIdr freeThresholdIdr : Int),
      commonKeysList (groupRates.map normalizeGroup) = [] →
      (∀ g ∈ groupRates, g.rates ≠ []) →
      aggregate groupRates subtotalSubunits handlingFeeIdr freeThresholdIdr =
        [{ courierName := "Mixed", serviceName := "Cheapest", courierCode := "mixed"
           serviceCode := "cheapest"
           totalPriceIdr := applyFeeRule subtotalSubunits handlingFeeIdr freeThresholdIdr
             (sumCheapest (groupRates.map normalizeGroup))
           minDay := mixedMinDay (groupRates.map normalizeGroup)
           maxDay := mixedMaxDay (groupRates.map normalizeGroup), fallback := true }])
    ∧ (∀ (groupRates : List GroupRates) (subtotalSubunits handlingFeeIdr freeThresholdIdr : Int),
        (∃ g ∈ groupRates, g.rates = []) →
        aggregate groupRates subtotalSubunits handlingFeeIdr freeThresholdIdr = [])
    ∧ (∀ (base : String) (pr : Bool) (r : AggRate) (curr : String) (n : Nat),
        r.fallback = true →
        (toShopifyRate base pr r curr n r.fallback).service_code = "BSH_MULTI_CHEAPEST")
    ∧ (calculate exCfg exWebkul exBiteshipDisjoint 0 (some exReq) emptyCalcState).map
        (fun p => p.1.rates.map (fun r => (r.service_code, r.total_price))) =
        .ok [("BSH_MULTI_CHEAPEST", "3700000")] := by
  refine ⟨?_, ?_, ?_, ?_⟩
  · intro gr s fee thr hck hall
    have hanyf : (gr.map normalizeGroup).any (fun g => g.cheapest.isNone) = false := by
      rw [List.any_eq_false]
      intro ng hng
      rw [List.mem_map] at hng
      obtain ⟨g, hg, rfl⟩ := hng
      have hd : dedupe g.rates ≠ [] := dedupe_ne_nil _ (hall g hg)
      have hm : ((dedupe g.rates).map (fun p => p.2)) ≠ [] := by simpa using hd
      have hs := firstMinByPrice_isSome _ hm
      cases h2 : firstMinByPrice ((dedupe g.rates).map (fun p => p.2)) with
      | none => rw [h2] at hs; simp at hs
      | some r => simp [normalizeGroup, h2]
    unfold aggregate
    simp [hck, hanyf, applyFeeRule]
  · intro gr s fee thr hex
    obtain ⟨g0, hg0, hrates⟩ := hex
    have hby : (normalizeGroup g0).byKey = [] := by simp [normalizeGroup, hrates, dedupe]
    have hck : commonKeysList (gr.map normalizeGroup) = [] := by
      rw [List.eq_nil_iff_forall_not_mem]
      intro k hk
      have hall := mem_commonKeysList _ k hk (normalizeGroup g0) (List.mem_map_of_mem _ hg0)
      rw [hby] at hall
      simp [List.lookup] at hall
    have hany : (gr.map normalizeGroup).any (fun g => g.cheapest.isNone) = true := by
      rw [List.any_eq_true]
      refine ⟨normalizeGroup g0, List.mem_map_of_mem _ hg0, ?_⟩
      simp [normalizeGroup, hrates, dedupe, firstMinByPrice]
    unfold aggregate
    simp [hck, hany]
  · intro base pr r curr n h
    simp [toShopifyRate, h]
  · rfl

/-- Worked instance of claim C2 on the disjoint fixture groups and on a
group with zero quotes. -/
theorem claim_C2_witness :
    (commonKeysList (exGroupRatesDisjoint.map normalizeGroup) = [] ∧
      (∀ g ∈ exGroupRatesDisjoint, g.rates ≠ []) ∧
      aggregate exGroupRatesDisjoint 35000000 0 0 =
        [{ courierName := "Mixed", serviceName := "Cheapest", courierCode := "mixed"
           serviceCode := "cheapest"
           totalPriceIdr := applyFeeRule 35000000 0 0
             (sumCheapest (exGroupRatesDisjoint.map normalizeGroup))
           minDay := mixedMinDay (exGroupRatesDisjoint.map normalizeGroup)
           maxDay := mixedMaxDay (exGroupRatesDisjoint.map normalizeGroup)
           fallback := true }]) ∧
    aggregate [{ sellerId := "501", originPostalCode := "10110", rates := [rateJneRegA] },
               { sellerId := "502", originPostalCode := "60291", rates := [] }] 35000000 0 0
      = [] :=
  ⟨⟨by decide, by decide,
    claim_C2.1 exGroupRatesDisjoint 35000000 0 0 (by decide) (by decide)⟩,
   claim_C2.2.1 _ 35000000 0 0
     ⟨{ sellerId := "502", originPostalCode := "60291", rates := [] },
      by decide, rfl⟩⟩

/-- Claim C3 counterexample: with no persisted entry and an empty cache, a
successful quote-time live lookup for seller 501 leaves the persisted
seller-origin store changed, not unchanged: it now holds the normalized
copy of the resolved origin (country defaulted to ID, source defaulted to
manual, write clock recorded), refuting the claim that only explicit
origin-sync events write to the persisted store. -/
theorem claim_C3_counterexample :
    ((getSellerOrigin exCfg exWebkul 0 "501" emptyCalcState).toOption.map
        (fun p => p.2.sellerOriginStore)) =
      some [("501", normalizeOriginRecord exQuoteOriginA 0)]
    ∧ emptyCalcState.sellerOriginStore = []
    ∧ ([("501", normalizeOriginRecord exQuoteOriginA 0)] : List (String × Origin)) ≠ []
    ∧ (normalizeOriginRecord exQuoteOriginA 0).country = "ID"
    ∧ (normalizeOriginRecord exQuoteOriginA 0).source = "manual" := by
  exact ⟨rfl, rfl, by decide, by decide, by decide⟩

/-- Claim C3 amended: for every quote-time origin resolution that finds no
persisted entry (and no cached entry), a successful live provider lookup
writes the resolved origin into the in-memory seller cache AND upserts it
into the persisted seller-origin store; explicit origin-sync events are not
the only writers of the persisted store. -/
theorem claim_C3_amended (cfg : CalcConfig) (wk : WebkulOracle) (now : Int)
    (sellerId : String) (st : CalcState) (o : Origin)
    (hPersist : originWithPostal (List.lookup sellerId st.sellerOriginStore) = none)
    (hCache : originWithPostal (mcGet st.sellerCache sellerId now).1 = none)
    (hLive : wk.resolveSellerOrigin sellerId = .ok o) :
    getSellerOrigin cfg wk now sellerId st =
      .ok (o,
        { st with
          sellerCache := mcSet (mcGet st.sellerCache sellerId now).2 sellerId o
            cfg.sellerTtlSeconds now cfg.cacheMaxEntries
          sellerOriginStore := upsertOrigin st.sellerOriginStore o now
          calls := st.calls ++ [NetCall.sellerLookup sellerId] }) := by
  unfold getSellerOrigin
  simp only [hPersist, hCache, hLive]

/-- Worked instance of the amended claim C3 on the empty state. -/
theorem claim_C3_amended_witness :
    getSellerOrigin exCfg exWebkul 0 "501" emptyCalcState =
      .ok (exQuoteOriginA,
        { emptyCalcState with
          sellerCache := mcSet (mcGet emptyCalcState.sellerCache "501" 0).2 "501"
            exQuoteOriginA exCfg.sellerTtlSeconds 0 exCfg.cacheMaxEntries
          sellerOriginStore := upsertOrigin emptyCalcState.sellerOriginStore
            exQuoteOriginA 0
          calls := emptyCalcState.calls ++ [NetCall.sellerLookup "501"] }) :=
  claim_C3_amended exCfg exWebkul 0 "501" emptyCalcState exQuoteOriginA rfl rfl rfl

/-- Claim C4: when the stored record of the order is completed and force is
off, the orchestrator returns that record unchanged as a skipped result,
issues no booking call, and leaves the whole order-sync state (store, saves
log, booking-call log) untouched. -/
theorem claim_C4 (deps : SyncDeps) (cfg : SyncCfg) (oid : String) (opts : SyncOptions)
    (st : SyncState) (order : OrderInfo) (r : SyncRecord)
    (hConf : deps.shopifyConfigured = true)
    (hOrder : deps.getOrder oid = .ok order)
    (hPrev : List.lookup order.id st.store = some r)
    (hStatus : r.status = "completed")
    (hForce : opts.force = false) :
    createBiteshipOrdersFromOrder deps cfg oid opts st =
      .ok ({ ok := true, skipped := true, reason := some "already_completed"
             record := r }, st) := by
  unfold createBiteshipOrdersFromOrder
  simp only [hConf, hOrder, hPrev, hStatus, hForce]
  simp

/-- Worked instance of claim C4 on the completed fixture record. -/
theorem claim_C4_witness :
    createBiteshipOrdersFromOrder exSyncDepsOk exSyncCfg "9001" exSyncOpts exStateCompleted =
      .ok ({ ok := true, skipped := true, reason := some "already_completed"
             record := exCompletedRecord }, exStateCompleted) :=
  claim_C4 exSyncDepsOk exSyncCfg "9001" exSyncOpts exStateCompleted exOrder
    exCompletedRecord rfl rfl rfl rfl rfl

/-! ## Helper lemmas on the order-sync loop -/

/-- The per-group loop in closed form: one shipment per group, the failure
flag is an any-fold, the booking calls are a filterMap. -/
theorem processGroups_spec (deps : SyncDeps) (cfg : SyncCfg) (order : OrderInfo)
    (dest : SyncDestination) (autoFulfill force : Bool) (prev : List Shipment)
    (groups : List PlanGroup) :
    processGroups deps cfg order dest autoFulfill force prev groups =
      (groups.map (groupShipmentFor deps cfg order dest autoFulfill force prev),
       groups.any (newFailureFlag deps cfg order dest autoFulfill force prev),
       groups.filterMap (callFor deps cfg order dest autoFulfill force prev)) := by
  induction groups with
  | nil => simp [processGroups]
  | cons g rest ih =>
    simp only [processGroups, ih, List.map_cons, List.any_cons, List.filterMap_cons]
    cases hk : keptShipment force prev g with
    | some p => simp [groupShipmentFor, newFailureFlag, callFor, hk]
    | none =>
      by_cases hc : (processGroup deps cfg order dest autoFulfill g).calledBooking = true
      · simp [groupShipmentFor, newFailureFlag, callFor, hk, hc]
      · simp [groupShipmentFor, newFailureFlag, callFor, hk, hc]

/-- A freshly processed group yields a failed shipment exactly when its
failure flag is set, and a created one otherwise. -/
theorem processGroup_status (deps : SyncDeps) (cfg : SyncCfg) (order : OrderInfo)
    (dest : SyncDestination) (autoFulfill : Bool) (g : PlanGroup) :
    (processGroup deps cfg order dest autoFulfill g).shipment.status =
      (if (processGroup deps cfg order dest autoFulfill g).failed then "failed"
       else "created") := by
  cases hb : buildOrderPayload order dest g cfg.defaultDeliveryType with
  | error e => simp [processGroup, hb, failedShipment]
  | ok p =>
    cases hc : deps.createOrder p with
    | error e => simp [processGroup, hb, hc, failedShipment]
    | ok resp =>
      cases ha : autoFulfill with
      | false => simp [processGroup, hb, hc, ha, createdShipment]
      | true =>
        cases hf : deps.createShopifyFulfillment g
            (createdShipment dest g (extractBiteshipOrderSummary resp)) with
        | error e =>
          simp only [processGroup, hb, hc, ha, hf]
          simp [failedShipment]
        | ok fo =>
          cases fo with
          | none =>
            simp only [processGroup, hb, hc, ha, hf]
            simp [createdShipment]
          | some fr =>
            simp only [processGroup, hb, hc, ha, hf]
            simp [createdShipment]

/-- A kept prior shipment always has status created. -/
theorem keptShipment_status (force : Bool) (prev : List Shipment) (g : PlanGroup)
    (p : Shipment) (h : keptShipment force prev g = some p) : p.status = "created" := by
  unfold keptShipment at h
  cases hforce : force with
  | true => rw [hforce] at h; simp at h
  | false =>
    rw [hforce] at h
    simp only [Bool.false_eq_true, if_false] at h
    cases hfind : List.find? (fun s => s.sellerId == g.sellerId) prev with
    | none => rw [hfind] at h; simp at h
    | some q =>
      rw [hfind] at h
      by_cases hs : q.status == "created"
      · simp only [hs, if_true] at h
        cases h
        exact eq_of_beq hs
      · simp [hs] at h

/-- runSync in closed form, given a successful plan build and fulfillment
fetch: the processing record and the final record are persisted in that
order and the result carries the final record. -/
theorem runSync_spec (deps : SyncDeps) (cfg : SyncCfg) (order : OrderInfo)
    (autoFulfill notify force : Bool) (sourceTag : String) (prev : List Shipment)
    (st : SyncState) (plan : SyncPlan)
    (hPlan : deps.buildPlan order = .ok plan)
    (hFO : (if autoFulfill then deps.getFulfillmentOrders order.id else Except.ok ()) =
      .ok ()) :
    runSync deps cfg order autoFulfill notify force sourceTag prev st =
      .ok
        ({ ok := !(plan.sellerGroups.any
              (newFailureFlag deps cfg order plan.destination autoFulfill force prev))
           skipped := false, reason := none
           record :=
            { processingRecordOf order plan sourceTag autoFulfill with
              shipments := plan.sellerGroups.map
                (groupShipmentFor deps cfg order plan.destination autoFulfill force prev)
              status :=
                if plan.sellerGroups.any
                    (newFailureFlag deps cfg order plan.destination autoFulfill force prev)
                then "partial_failed" else "completed"
              lastError :=
                if plan.sellerGroups.any
                    (newFailureFlag deps cfg order plan.destination autoFulfill force prev)
                then some "One or more seller shipments failed" else none } },
         saveRecord
           { saveRecord st (processingRecordOf order plan sourceTag autoFulfill) with
             bookCalls := st.bookCalls ++ plan.sellerGroups.filterMap
               (callFor deps cfg order plan.destination autoFulfill force prev) }
           { processingRecordOf order plan sourceTag autoFulfill with
             shipments := plan.sellerGroups.map
               (groupShipmentFor deps cfg order plan.destination autoFulfill force prev)
             status :=
               if plan.sellerGroups.any
                   (newFailureFlag deps cfg order plan.destination autoFulfill force prev)
               then "partial_failed" else "completed"
             lastError :=
               if plan.sellerGroups.any
                   (newFailureFlag deps cfg order plan.destination autoFulfill force prev)
               then some "One or more seller shipments failed" else none }) := by
  unfold runSync
  simp only [hPlan, hFO, processGroups_spec, saveRecord]

/-- The final status of a run with force off is completed exactly when every
shipment of the run record has status created. -/
theorem run_status_iff (deps : SyncDeps) (cfg : SyncCfg) (order : OrderInfo)
    (dest : SyncDestination) (autoFulfill : Bool) (prev : List Shipment)
    (groups : List PlanGroup) :
    ((if groups.any (newFailureFlag deps cfg order dest autoFulfill false prev)
        then "partial_failed" else "completed") = "completed")
      ↔ ∀ s ∈ groups.map (groupShipmentFor deps cfg order dest autoFulfill false prev),
          s.status = "created" := by
  by_cases hAny :
      groups.any (newFailureFlag deps cfg order dest autoFulfill false prev) = true
  · rw [if_pos hAny]
    apply iff_of_false (by decide)
    intro hAll
    obtain ⟨g, hg, hflag⟩ := List.any_eq_true.mp hAny
    unfold newFailureFlag at hflag
    cases hk : keptShipment false prev g with
    | some p => rw [hk] at hflag; simp at hflag
    | none =>
      rw [hk] at hflag
      have hflag2 : (processGroup deps cfg order dest autoFulfill g).failed = true := hflag
      have hmem : groupShipmentFor deps cfg order dest autoFulfill false prev g ∈
          groups.map (groupShipmentFor deps cfg order dest autoFulfill false prev) :=
        List.mem_map_of_mem _ hg
      have hst := hAll _ hmem
      unfold groupShipmentFor at hst
      rw [hk] at hst
      rw [processGroup_status, hflag2] at hst
      simp at hst
  · have hAnyF : groups.any (newFailureFlag deps cfg order dest autoFulfill false prev)
        = false := by simpa using hAny
    rw [if_neg hAny]
    apply iff_of_true rfl
    intro s hs
    obtain ⟨g, hg, rfl⟩ := List.mem_map.mp hs
    unfold groupShipmentFor
    cases hk : keptShipment false prev g with
    | some p => exact keptShipment_status false prev g p hk
    | none =>
      have hflag := List.any_eq_false.mp hAnyF g hg
      unfold newFailureFlag at hflag
      rw [hk] at hflag
      have hflag2 : (processGroup deps cfg order dest autoFulfill g).failed = false := by
        simpa using hflag
      rw [processGroup_status, hflag2]
      simp

/-- Claim C5: in a sync run that is not skipped, every seller group
contributes exactly one shipment; the final status is completed exactly when
every shipment of the run is created; a booking rejection for one group is
caught and recorded as a failed shipment carrying the error message while
the other groups still contribute their shipments; and a group whose prior
run produced a created shipment is kept unchanged and issues no new booking
call when force is off. -/
theorem claim_C5 (deps : SyncDeps) (cfg : SyncCfg) (oid : String) (opts : SyncOptions)
    (st : SyncState) (order : OrderInfo) (plan : SyncPlan) (res : SyncResult)
    (st2 : SyncState)
    (hConf : deps.shopifyConfigured = true)
    (hOrder : deps.getOrder oid = .ok order)
    (hForce : opts.force = false)
    (hNoSkip : ¬((List.lookup order.id st.store).map SyncRecord.status = some "completed"))
    (hPlan : deps.buildPlan order = .ok plan)
    (hFO : (if opts.autoFulfill.getD cfg.autoFulfillOnCreate then
        deps.getFulfillmentOrders order.id else Except.ok ()) = .ok ())
    (hRun : createBiteshipOrdersFromOrder deps cfg oid opts st = .ok (res, st2)) :
    res.skipped = false
    ∧ res.record.shipments = plan.sellerGroups.map
        (groupShipmentFor deps cfg order plan.destination
          (opts.autoFulfill.getD cfg.autoFulfillOnCreate) false (prevShipmentsOf st order))
    ∧ (res.record.status = "completed" ↔
        ∀ s ∈ res.record.shipments, s.status = "created")
    ∧ st2.bookCalls = st.bookCalls ++ plan.sellerGroups.filterMap
        (callFor deps cfg order plan.destination
          (opts.autoFulfill.getD cfg.autoFulfillOnCreate) false (prevShipmentsOf st order))
    ∧ (∀ g ∈ plan.sellerGroups,
        keptShipment false (prevShipmentsOf st order) g = none →
        ∀ p e, buildOrderPayload order plan.destination g cfg.defaultDeliveryType = .ok p →
          deps.createOrder p = .error e →
          groupShipmentFor deps cfg order plan.destination
              (opts.autoFulfill.getD cfg.autoFulfillOnCreate) false
              (prevShipmentsOf st order) g =
            failedShipment plan.destination g e)
    ∧ (∀ g ∈ plan.sellerGroups, ∀ p,
        keptShipment false (prevShipmentsOf st order) g = some p →
        groupShipmentFor deps cfg order plan.destination
            (opts.autoFulfill.getD cfg.autoFulfillOnCreate) false
            (prevShipmentsOf st order) g = p
        ∧ ((plan.sellerGroups.map PlanGroup.sellerId).Nodup →
            g.sellerId ∉ plan.sellerGroups.filterMap
              (callFor deps cfg order plan.destination
                (opts.autoFulfill.getD cfg.autoFulfillOnCreate) false
                (prevShipmentsOf st order)))) := by
  unfold createBiteshipOrdersFromOrder at hRun
  simp only [hConf, hOrder, hForce] at hRun
  have hMain : runSync deps cfg order (opts.autoFulfill.getD cfg.autoFulfillOnCreate)
      (opts.notifyCustomer.getD cfg.notifyCustomerOnFulfill) false
      (opts.source.getD "admin_dashboard") (prevShipmentsOf st order) st =
      .ok (res, st2) := by
    cases hLook : List.lookup order.id st.store with
    | none =>
      rw [hLook] at hRun
      simpa [prevShipmentsOf, hLook] using hRun
    | some r =>
      rw [hLook] at hRun
      have hne : ¬(r.status = "completed") := by
        intro hc
        exact hNoSkip (by simp [hLook, hc])
      simp only [hne, and_false, if_false] at hRun
      simpa [prevShipmentsOf, hLook] using hRun
  rw [runSync_spec deps cfg order _ _ false _ _ st plan hPlan hFO] at hMain
  rw [Except.ok.injEq, Prod.mk.injEq] at hMain
  obtain ⟨hres, hst2⟩ := hMain
  subst hres
  subst hst2
  refine ⟨rfl, rfl, ?_, ?_, ?_, ?_⟩
  · exact run_status_iff deps cfg order plan.destination _ (prevShipmentsOf st order)
      plan.sellerGroups
  · simp [saveRecord]
  · intro g hg hk p e hp he
    unfold groupShipmentFor
    rw [hk]
    simp [processGroup, hp, he]
  · intro g hg p hk
    constructor
    · unfold groupShipmentFor
      rw [hk]
    · intro hnd hmem
      obtain ⟨g2, hg2, hcall⟩ := List.mem_filterMap.mp hmem
      unfold callFor at hcall
      cases hk2 : keptShipment false (prevShipmentsOf st order) g2 with
      | some q => rw [hk2] at hcall; simp at hcall
      | none =>
        rw [hk2] at hcall
        by_cases hc : (processGroup deps cfg order plan.destination
            (opts.autoFulfill.getD cfg.autoFulfillOnCreate) g2).calledBooking = true
        · rw [if_pos hc] at hcall
          have hid : g2.sellerId = g.sellerId := by
            exact Option.some.inj hcall
          have hgg : g2 = g :=
            List.inj_on_of_nodup_map hnd hg2 hg hid
          rw [hgg] at hk2
          rw [hk2] at hk
          exact Option.noConfusion hk
        · rw [if_neg hc] at hcall
          exact Option.noConfusion hcall

/-- Worked instance of claim C5: the partial-failure re-run keeps seller
501 as created, re-books only seller 502, records its rejection as a failed
shipment, and ends partial_failed. -/
theorem claim_C5_witness :
    exRerunResult.record.shipments = [exPlanG1, exPlanG2].map
        (groupShipmentFor exSyncDepsG2Fails exSyncCfg exOrder exSyncDest false false
          exPartialRecord.shipments)
    ∧ exRerunState.bookCalls = exStatePartial.bookCalls ++ [exPlanG1, exPlanG2].filterMap
        (callFor exSyncDepsG2Fails exSyncCfg exOrder exSyncDest false false
          exPartialRecord.shipments)
    ∧ exRerunResult.record.status ≠ "completed" := by
  have h := claim_C5 exSyncDepsG2Fails exSyncCfg "9001" exSyncOpts exStatePartial exOrder
    exPlan exRerunResult exRerunState rfl rfl rfl (by decide) rfl rfl (by rfl)
  exact ⟨h.2.1, h.2.2.2.1, by decide⟩

/-- Claim C6 counterexample: a two-group run persists the record exactly
twice, once before the loop (processing, no shipments) and once at the end
(completed, both shipments); no persisted record carries only the first
processed group, refuting persist-after-every-group. -/
theorem claim_C6_counterexample :
    ((createBiteshipOrdersFromOrder exSyncDepsOk exSyncCfg "9001" exSyncOpts
        emptySyncState).toOption.map
      (fun p => p.2.saves.map (fun r => (r.status, r.shipments.length)))) =
      some [("processing", 0), ("completed", 2)]
    ∧ exPlan.sellerGroups.length = 2 :=
  ⟨by rfl, rfl⟩

/-- Claim C6 amended: during a sync run the record is persisted exactly
twice: a processing record with no shipments before any seller group is
processed, and the final record with all shipments after every group; no
persist happens between groups, so a crash mid-run leaves the empty
processing record. -/
theorem claim_C6_amended (deps : SyncDeps) (cfg : SyncCfg) (oid : String)
    (opts : SyncOptions) (st : SyncState) (order : OrderInfo) (plan : SyncPlan)
    (res : SyncResult) (st2 : SyncState)
    (hConf : deps.shopifyConfigured = true)
    (hOrder : deps.getOrder oid = .ok order)
    (hForce : opts.force = false)
    (hNoSkip : ¬((List.lookup order.id st.store).map SyncRecord.status = some "completed"))
    (hPlan : deps.buildPlan order = .ok plan)
    (hFO : (if opts.autoFulfill.getD cfg.autoFulfillOnCreate then
        deps.getFulfillmentOrders order.id else Except.ok ()) = .ok ())
    (hRun : createBiteshipOrdersFromOrder deps cfg oid opts st = .ok (res, st2)) :
    st2.saves = st.saves ++
      [processingRecordOf order plan (opts.source.getD "admin_dashboard")
        (opts.autoFulfill.getD cfg.autoFulfillOnCreate), res.record]
    ∧ (processingRecordOf order plan (opts.source.getD "admin_dashboard")
        (opts.autoFulfill.getD cfg.autoFulfillOnCreate)).status = "processing"
    ∧ (processingRecordOf order plan (opts.source.getD "admin_dashboard")
        (opts.autoFulfill.getD cfg.autoFulfillOnCreate)).shipments = [] := by
  unfold createBiteshipOrdersFromOrder at hRun
  simp only [hConf, hOrder, hForce] at hRun
  have hMain : runSync deps cfg order (opts.autoFulfill.getD cfg.autoFulfillOnCreate)
      (opts.notifyCustomer.getD cfg.notifyCustomerOnFulfill) false
      (opts.source.getD "admin_dashboard") (prevShipmentsOf st order) st =
      .ok (res, st2) := by
    cases hLook : List.lookup order.id st.store with
    | none =>
      rw [hLook] at hRun
      simpa [prevShipmentsOf, hLook] using hRun
    | some r =>
      rw [hLook] at hRun
      have hne : ¬(r.status = "completed") := by
        intro hc
        exact hNoSkip (by simp [hLook, hc])
      simp only [hne, and_false, if_false] at hRun
      simpa [prevShipmentsOf, hLook] using hRun
  rw [runSync_spec deps cfg order _ _ false _ _ st plan hPlan hFO] at hMain
  rw [Except.ok.injEq, Prod.mk.injEq] at hMain
  obtain ⟨hres, hst2⟩ := hMain
  subst hres
  subst hst2
  refine ⟨?_, rfl, rfl⟩
  simp [saveRecord]

/-- Worked instance of the amended claim C6 on the re-run fixture. -/
theorem claim_C6_amended_witness :
    exRerunState.saves = exStatePartial.saves ++
      [processingRecordOf exOrder exPlan "admin_dashboard" false,
        exRerunResult.record] := by
  have h := claim_C6_amended exSyncDepsG2Fails exSyncCfg "9001" exSyncOpts exStatePartial
    exOrder exPlan exRerunResult exRerunState rfl rfl rfl (by decide) rfl rfl (by rfl)
  exact h.1

/-- Claim C7 counterexample: with cap 2 and the operation sequence set a,
set b, set a again, set c, the cache evicts a and keeps b, because set of an
existing key updates it in place without refreshing its position; under the
claimed policy where set also counts as a touch, b would have been evicted
and a retained. -/
theorem claim_C7_counterexample :
    (mcGet (mcSet (mcSet (mcSet (mcSet ([] : MC Nat) "a" 1 100 0 2) "b" 2 100 0 2)
        "a" 10 100 0 2) "c" 3 100 0 2) "a" 0).1 = none
    ∧ (mcGet (mcSet (mcSet (mcSet (mcSet ([] : MC Nat) "a" 1 100 0 2) "b" 2 100 0 2)
        "a" 10 100 0 2) "c" 3 100 0 2) "b" 0).1 = some 2 := by
  exact ⟨by decide, by decide⟩

/-- Claim C7 amended: get of a live key moves it to the most-recent end of
the iteration order; set of a new key appends it at the most-recent end and
then evicts from the least-recent front while over the cap; set of an
existing key updates value and expiry in place, leaving the key order (and
hence its eviction rank) unchanged; eviction always removes the front,
least-recently-touched entries. -/
theorem claim_C7_amended {α : Type} :
    (∀ (c : MC α) (k : String) (v : α) (exp now : Int),
      List.lookup k c = some (v, exp) → now < exp →
      mcGet c k now = (some v, mcErase c k ++ [(k, v, exp)]))
    ∧ (∀ (c : MC α) (k : String) (v : α) (ttl now : Int) (maxE : Nat),
      (List.lookup k c).isSome = false →
      mcSet c k v ttl now maxE = mcEvict (c ++ [(k, v, now + ttl * 1000)]) maxE)
    ∧ (∀ (c : MC α) (k : String) (v : α) (exp : Int),
      (List.lookup k c).isSome = true →
      mcKeys (mcSetRaw c k v exp) = mcKeys c)
    ∧ (∀ (c : MC α) (maxE : Nat), maxE < c.length →
      mcEvict c maxE = c.drop (c.length - maxE)) := by
  refine ⟨?_, ?_, ?_, ?_⟩
  · intro c k v exp now hl hlt
    unfold mcGet
    rw [hl]
    have hn : ¬(exp ≤ now) := not_le.mpr hlt
    simp [hn]
  · intro c k v ttl now maxE h
    unfold mcSet mcSetRaw
    rw [h]
    simp
  · intro c k v exp h
    have aux : ∀ l : MC α,
        mcKeys (l.map (fun e => if e.1 = k then (k, v, exp) else e)) = mcKeys l := by
      intro l
      induction l with
      | nil => rfl
      | cons e t ih =>
        by_cases he : e.1 = k <;> simp [mcKeys, he] <;> simpa [mcKeys] using ih
    unfold mcSetRaw
    rw [h]
    simp only [if_true]
    exact aux c
  · intro c maxE h
    unfold mcEvict
    rw [if_pos h]

/-- Worked instance of the amended claim C7 on small concrete caches. -/
theorem claim_C7_amended_witness :
    mcGet ([("x", (5 : Nat), 10), ("y", 6, 10)]) "x" 0 =
      (some 5, mcErase [("x", 5, 10), ("y", 6, 10)] "x" ++ [("x", 5, 10)])
    ∧ mcSet ([("x", (5 : Nat), 10)]) "z" 7 1 0 1 =
      mcEvict ([("x", 5, 10)] ++ [("z", 7, 0 + 1 * 1000)]) 1
    ∧ mcKeys (mcSetRaw ([("x", (5 : Nat), 10)]) "x" 9 99) = mcKeys [("x", 5, 10)]
    ∧ mcEvict ([("x", (5 : Nat), 10), ("y", 6, 10)]) 1 =
      [("x", (5 : Nat), 10), ("y", 6, 10)].drop
        ([("x", (5 : Nat), 10), ("y", 6, 10)].length - 1) :=
  ⟨claim_C7_amended.1 _ "x" 5 10 0 (by decide) (by decide),
    claim_C7_amended.2.1 _ "z" 7 1 0 1 (by decide),
    claim_C7_amended.2.2.1 _ "x" 9 99 (by decide),
    claim_C7_amended.2.2.2 _ 1 (by decide)⟩

/-- Claim C8: a 429 response with header Retry-After 2 followed by a
success is retried exactly once with a computed delay of 2000 ms (at least
2000 ms); and a throttled or unavailable response that persists past
maxRetries retries propagates the wrapped error carrying the upstream
status and response body, with exactly maxRetries delays slept. -/
theorem claim_C8 :
    (∀ (cfg : BiteshipCfg) (body : Option String) (pricing : List Rate)
        (rest : List BiteshipHttpResult),
      0 < cfg.maxRetries →
      getRatesModel cfg
          (.failure (some 429) body (.numeric 2) :: .success pricing :: rest) =
        (.ok (pricing.filter (fun r => 0 < r.price)), [2000]))
    ∧ (∀ (cfg : BiteshipCfg) (status : Option Nat) (body : Option String)
        (ra : RetryAfterVal),
      isRetryableStatus status = true →
      (getRatesModel cfg
          (List.replicate (cfg.maxRetries + 1) (.failure status body ra))).1 =
        .error { status := status, responseBody := body }
      ∧ (getRatesModel cfg
          (List.replicate (cfg.maxRetries + 1) (.failure status body ra))).2.length =
        cfg.maxRetries) := by
  constructor
  · intro cfg body pricing rest h
    have hp : parseRetryAfterMs (RetryAfterVal.numeric 2) = some 2000 := by decide
    simp [getRatesModel, getRatesGo, isRetryableStatus, backoffDelay, hp, h]
  · have aux : ∀ (cfg : BiteshipCfg) (status : Option Nat) (body : Option String)
        (ra : RetryAfterVal), isRetryableStatus status = true →
        ∀ (m attempt : Nat), attempt + m = cfg.maxRetries →
        (getRatesGo cfg (List.replicate (m + 1) (.failure status body ra)) attempt).1 =
            .error { status := status, responseBody := body }
          ∧ (getRatesGo cfg (List.replicate (m + 1)
              (.failure status body ra)) attempt).2.length = m := by
      intro cfg status body ra hr m
      induction m with
      | zero =>
        intro attempt hat
        have hnl : ¬(attempt < cfg.maxRetries) := by omega
        simp [getRatesGo, List.replicate, hnl]
      | succ m2 ih =>
        intro attempt hat
        have hlt : attempt < cfg.maxRetries := by omega
        have ih2 := ih (attempt + 1) (by omega)
        rw [List.replicate_succ]
        have step : getRatesGo cfg
            (BiteshipHttpResult.failure status body ra ::
              List.replicate (m2 + 1) (BiteshipHttpResult.failure status body ra)) attempt =
            (if isRetryableStatus status ∧ attempt < cfg.maxRetries then
              ((getRatesGo cfg
                  (List.replicate (m2 + 1) (BiteshipHttpResult.failure status body ra))
                  (attempt + 1)).1,
                backoffDelay cfg ra attempt ::
                  (getRatesGo cfg
                    (List.replicate (m2 + 1) (BiteshipHttpResult.failure status body ra))
                    (attempt + 1)).2)
            else (Except.error { status := status, responseBody := body }, [])) := rfl
        rw [step, if_pos ⟨hr, hlt⟩]
        exact ⟨ih2.1, by simp [ih2.2]⟩
    intro cfg status body ra hr
    exact aux cfg status body ra hr cfg.maxRetries 0 (by omega)

/-- Worked instance of claim C8 at retry budgets 3 and 2. -/
theorem claim_C8_witness :
    getRatesModel ⟨3, 300⟩ [.failure (some 429) (some "slow down") (.numeric 2),
        .success [rateJneRegA]] =
      (.ok ([rateJneRegA].filter (fun r => 0 < r.price)), [2000])
    ∧ (getRatesModel ⟨2, 300⟩
        (List.replicate 3 (.failure (some 503) (some "oops") .absent))).1 =
        .error { status := some 503, responseBody := some "oops" }
    ∧ (getRatesModel ⟨2, 300⟩
        (List.replicate 3 (.failure (some 503) (some "oops") .absent))).2.length = 2 := by
  have h1 := claim_C8.1 ⟨3, 300⟩ (some "slow down") [rateJneRegA] [] (by decide)
  have h2 := claim_C8.2 ⟨2, 300⟩ (some 503) (some "oops") RetryAfterVal.absent (by decide)
  exact ⟨h1, h2.1, h2.2⟩

/-- Claim C9: a cart with no shippable item, and a cart whose destination
has neither a postal code nor both coordinates, both yield an empty rate
list tagged with a reason, with the process state (caches, persisted store,
network-call log) left completely untouched. -/
theorem claim_C9 :
    (∀ (cfg : CalcConfig) (wk : WebkulOracle) (bs : BiteshipOracle) (now : Int)
        (q : RateRequest) (st : CalcState),
      (q.items.getD []).filter isShippable = [] →
      calculate cfg wk bs now (some q) st =
        .ok ({ rates := [], reason := some "no_shippable_items", source := none }, st))
    ∧ (∀ (cfg : CalcConfig) (wk : WebkulOracle) (bs : BiteshipOracle) (now : Int)
        (q : RateRequest) (st : CalcState),
      destinationPostalCode cfg q = "" →
      hasDestinationCoordinates q = false →
      (calculate cfg wk bs now (some q) st).map
          (fun p => (p.1.rates, p.1.reason.isSome, p.2)) =
        .ok ([], true, st)) := by
  constructor
  · intro cfg wk bs now q st h
    simp [calculate, h]
  · intro cfg wk bs now q st h1 h2
    cases hfil : (q.items.getD []).filter isShippable with
    | nil => simp [calculate, hfil, Except.map]
    | cons a l => simp [calculate, hfil, h1, h2, Except.map]

/-- Worked instance of claim C9 on the non-shippable cart and the cart with
no destination. -/
theorem claim_C9_witness :
    calculate exCfg exWebkul exBiteshipCommon 0 (some exReqNoShippable) emptyCalcState =
      .ok ({ rates := [], reason := some "no_shippable_items", source := none },
        emptyCalcState)
    ∧ (calculate exCfg exWebkul exBiteshipCommon 0 (some exReqNoDestination)
        emptyCalcState).map (fun p => (p.1.rates, p.1.reason.isSome, p.2)) =
      .ok ([], true, emptyCalcState) :=
  ⟨claim_C9.1 exCfg exWebkul exBiteshipCommon 0 exReqNoShippable emptyCalcState (by decide),
    claim_C9.2 exCfg exWebkul exBiteshipCommon 0 exReqNoDestination emptyCalcState
      (by decide) (by decide)⟩

/-- Claim C10: a Retry-After header parsing to zero milliseconds (the
literal zero, or an HTTP date at or before now) is treated like an absent
or unparseable header: the delay actually used is the exponential backoff
retryDelayMs times 2 to the attempt. -/
theorem claim_C10 :
    parseRetryAfterMs (.numeric 0) = some 0
    ∧ (∀ d : Int, d ≤ 0 → parseRetryAfterMs (.httpDate d) = some 0)
    ∧ (∀ (cfg : BiteshipCfg) (ra : RetryAfterVal) (attempt : Nat),
        parseRetryAfterMs ra = some 0 →
        backoffDelay cfg ra attempt = cfg.retryDelayMs * 2 ^ attempt
        ∧ backoffDelay cfg ra attempt = backoffDelay cfg .absent attempt)
    ∧ (∀ (cfg : BiteshipCfg) (body : Option String) (rest : List BiteshipHttpResult),
        0 < cfg.maxRetries →
        (getRatesModel cfg (.failure (some 429) body (.numeric 0) :: rest)).2.head? =
          some (cfg.retryDelayMs * 2 ^ (0 : Nat))) := by
  refine ⟨by decide, ?_, ?_, ?_⟩
  · intro d h
    simp only [parseRetryAfterMs]
    rw [max_eq_left h]
  · intro cfg ra attempt h
    unfold backoffDelay
    rw [h]
    simp [parseRetryAfterMs]
  · intro cfg body rest h
    have hp : parseRetryAfterMs (RetryAfterVal.numeric 0) = some 0 := by decide
    simp [getRatesModel, getRatesGo, isRetryableStatus, backoffDelay, hp, h]

/-- Worked instance of claim C10 at a past HTTP date, a zero header, and a
throttled first attempt. -/
theorem claim_C10_witness :
    parseRetryAfterMs (.httpDate (-5)) = some 0
    ∧ backoffDelay ⟨3, 300⟩ (.numeric 0) 2 = 300 * 2 ^ 2
    ∧ (getRatesModel ⟨3, 300⟩ [.failure (some 429) none (.numeric 0),
        .success []]).2.head? = some (300 * 2 ^ (0 : Nat)) := by
  exact ⟨claim_C10.2.1 (-5) (by decide),
    (claim_C10.2.2.1 ⟨3, 300⟩ (.numeric 0) 2 (by decide)).1,
    claim_C10.2.2.2 ⟨3, 300⟩ none [.success []] (by decide)⟩

end FimShopify
